import Mathlib

/-!
Verification development for the DevAi request-orchestration core.

The definitions below are a shallow embedding of the TypeScript source:

* FunctionRegistry (capability registry, rate limiter, fallback execution),
  from the registry module.
* ProviderManager (provider selection, fallback chain, circuit breaker),
  from lib/providers/manager.ts, with the static configuration tables from
  lib/config/models.ts, lib/config/plans.ts and the provider config module.
* BaseProvider.withRetry and the OpenAI adapter entry, from lib/providers/base.ts.
* EventPipeline.processEvent, from lib/core/event-pipeline.ts.
* MessageRouter.checkUsageLimits and MessageRouter.buildContext, from
  lib/router/routeMessage.ts.

JavaScript Map objects become insertion-ordered association lists, thrown
exceptions become Except errors, async external calls (database, HTTP)
become explicit outcome parameters, and Date.now becomes an explicit time
argument.  Adapter-invocation counters and attempt logs are instrumentation
added so that claims about call counts and attempt order can be stated; they
never influence control flow.
-/

set_option autoImplicit false

namespace DevAi

/-- Lookup in an insertion-ordered association list, the embedding of
reading from a JavaScript Map. -/
def mapGet {κ α : Type} [DecidableEq κ] : List (κ × α) → κ → Option α
  | [], _ => none
  | (k, v) :: rest, key => if k = key then some v else mapGet rest key

/-- Update in an insertion-ordered association list, the embedding of
Map.set: an existing key keeps its position, a new key is appended. -/
def mapSet {κ α : Type} [DecidableEq κ] : List (κ × α) → κ → α → List (κ × α)
  | [], key, value => [(key, value)]
  | (k, v) :: rest, key, value =>
    if k = key then (key, value) :: rest else (k, v) :: mapSet rest key value

/-- Embedding of the JSON-ish values that flow through handlers and
pipeline contexts. -/
inductive JsValue where
  | null
  | str (s : String)
  | num (n : Int)
  | bool (b : Bool)
deriving DecidableEq

/-! ## Capability registry

Shallow embedding of the FunctionRegistry class: definitions, execution
contexts, results, the in-memory sliding-window rate limiter, and the
executeFunction / executeFallback pair.  Handlers are arbitrary callables in
the source; here a handler is a function from the execution context to a
description of how its promise behaves (settles after some time with a value
or a rejection, or never settles). -/
/-- Behaviour of the promise returned by a capability handler. -/
inductive HandlerBehavior where
  | settles (time : Nat) (outcome : Except String JsValue)
  | never

/-- The rateLimit block of the execution policy. -/
structure RateLimitPolicy where
  requestsPerMinute : Nat
  burstLimit : Nat
deriving DecidableEq

/-- The execution block of a function definition: timeout in ms, retry
budget, optional fallback capability name, auth requirement, rate limit. -/
structure ExecutionPolicy where
  timeout : Nat
  retries : Nat
  fallback : Option String
  requiresAuth : Bool
  rateLimit : RateLimitPolicy
deriving DecidableEq

/-- Execution context threaded through a capability call, mirroring
FunctionExecutionContext.  A missing caller is the empty userId, matching
the JavaScript falsiness check on context.userId. -/
structure FunctionExecutionContext where
  functionId : String
  userId : String
  sessionId : String
  parameters : List (String × JsValue)
  startTime : Nat
  retryCount : Nat
  fallbackChain : List String
deriving DecidableEq

/-- A registered capability.  The zod schema fields that execution never
reads (parameter and return schemas, documentation) are kept as plain
strings and lists; the handler is the behavioural function described
above. -/
structure FunctionDefinition where
  id : String
  name : String
  description : String
  version : String
  category : String
  execution : ExecutionPolicy
  tags : List String
  handler : FunctionExecutionContext → HandlerBehavior

/-- The metadata object attached to a successful execution result. -/
structure ExecutionMetadata where
  functionId : String
  version : String
  category : String
  parameters : List (String × JsValue)
deriving DecidableEq

/-- Mirror of FunctionExecutionResult.  The source initialises metadata to
an empty object and only fills it on success; none stands for the empty
object. -/
structure FunctionExecutionResult where
  success : Bool
  result : JsValue
  error : Option String
  executionTime : Nat
  metadata : Option ExecutionMetadata
  fallbackUsed : Option String
deriving DecidableEq

/-- One in-memory rate limiter: per-key timestamp lists, the per-window
limit taken from requestsPerMinute, and the 60000 ms window. -/
structure RateLimiter where
  requests : List (String × List Nat)
  limit : Nat
  window : Nat
deriving DecidableEq

/-- Mutable state of the registry: the five maps held by the class. -/
structure FunctionRegistry where
  functions : List (String × FunctionDefinition)
  categories : List (String × List String)
  executionHistory : List (String × List FunctionExecutionResult)
  rateLimiters : List (String × RateLimiter)
  fallbackChains : List (String × List String)

/-- The registry constructed with empty maps. -/
def emptyRegistry : FunctionRegistry := ⟨[], [], [], [], []⟩

/-- Errors thrown (as JavaScript exceptions) by the registry entry points.
fuelExhausted is an artifact of the fuel-indexed recursion below and never
occurs when the fuel is positive, because every recursive descent is guarded
by the executeFallback catch. -/
inductive RegistryError where
  | functionNotFound (name : String)
  | rateLimitExceeded (name : String)
  | authRequired (name : String)
  | duplicateFunction (name : String)
  | fuelExhausted
deriving DecidableEq

/-- The message carried by each thrown error, as built in the source
(quotation marks around the interpolated name are dropped). -/
def RegistryError.message : RegistryError → String
  | .functionNotFound name => "Function " ++ name ++ " not found"
  | .rateLimitExceeded name => "Rate limit exceeded for function " ++ name
  | .authRequired name => "Authentication required for function " ++ name
  | .duplicateFunction name => "Function with name " ++ name ++ " already exists"
  | .fuelExhausted => "fuel exhausted"

/-- Message of the rejection produced by createTimeout. -/
def timeoutMessage (ms : Nat) : String :=
  "Function execution timed out after " ++ toString ms ++ "ms"

/-- Outcome of racing the handler promise against createTimeout for the
configured timeout: the handler wins exactly when it settles strictly
before the timer fires; otherwise the timer rejects with the timeout
message.  Returns the elapsed time together with the raced outcome. -/
def raceOutcome (behavior : HandlerBehavior) (timeoutMs : Nat) : Nat × Except String JsValue :=
  match behavior with
  | .settles time outcome =>
    if time < timeoutMs then (time, outcome) else (timeoutMs, .error (timeoutMessage timeoutMs))
  | .never => (timeoutMs, .error (timeoutMessage timeoutMs))

/-- Embedding of checkRateLimit: prune the per-(caller, capability) list to
the window, reject when the post-prune count reaches the limit, otherwise
record the new timestamp.  Returns the admission decision and the updated
registry (the stored list is rewritten only on admission, as in the
source). -/
def checkRateLimit (reg : FunctionRegistry) (definition : FunctionDefinition)
    (ctx : FunctionExecutionContext) (now : Nat) : Bool × FunctionRegistry :=
  match mapGet reg.rateLimiters definition.name with
  | none => (true, reg)
  | some limiter =>
    let userKey := ctx.userId ++ ":" ++ definition.name
    let userRequests := (mapGet limiter.requests userKey).getD []
    let recentRequests := userRequests.filter (fun time => now - time < limiter.window)
    if limiter.limit ≤ recentRequests.length then
      (false, reg)
    else
      let updated := { limiter with
        requests := mapSet limiter.requests userKey (recentRequests ++ [now]) }
      (true, { reg with rateLimiters := mapSet reg.rateLimiters definition.name updated })

/-- Embedding of recordExecution: append to the per-capability history and
keep only the last 100 entries. -/
def recordExecution (reg : FunctionRegistry) (name : String)
    (result : FunctionExecutionResult) : FunctionRegistry :=
  let history := (mapGet reg.executionHistory name).getD []
  let history := history ++ [result]
  let history := if 100 < history.length then history.drop 1 else history
  { reg with executionHistory := mapSet reg.executionHistory name history }

/-- Embedding of executeFunction: resolve the definition (throw when
absent), check the rate limiter (throw on saturation), check the auth
requirement (throw when required and the caller is missing), race the
handler against the timeout, and on failure hand over to the fallback path
when a fallback is declared and retries remain; otherwise record and return
the result.  The fuel argument bounds the fallback recursion depth and is
consumed only when descending into the fallback path; the catch block of
executeFallback (spelled out in the definition below this one) is inlined
here so the recursion is structural on the fuel. -/
def executeFunction : Nat → FunctionRegistry → String → FunctionExecutionContext → Nat →
    Except RegistryError FunctionExecutionResult × FunctionRegistry × FunctionExecutionContext
  | fuel, reg, name, ctx, now =>
    match mapGet reg.functions name with
    | none => (.error (.functionNotFound name), reg, ctx)
    | some functionDef =>
      match checkRateLimit reg functionDef ctx now with
      | (admitted, reg1) =>
        if !admitted then
          (.error (.rateLimitExceeded name), reg1, ctx)
        else if functionDef.execution.requiresAuth && decide (ctx.userId = "") then
          (.error (.authRequired name), reg1, ctx)
        else
          match raceOutcome (functionDef.handler ctx) functionDef.execution.timeout with
          | (elapsed, .ok value) =>
            let executionResult : FunctionExecutionResult :=
              { success := true
                result := value
                error := none
                executionTime := elapsed
                metadata := some
                  { functionId := functionDef.id
                    version := functionDef.version
                    category := functionDef.category
                    parameters := ctx.parameters }
                fallbackUsed := none }
            (.ok executionResult, recordExecution reg1 name executionResult, ctx)
          | (_, .error msg) =>
            let executionResult : FunctionExecutionResult :=
              { success := false
                result := .null
                error := some msg
                executionTime := 0
                metadata := none
                fallbackUsed := none }
            if functionDef.execution.fallback.isSome
                && decide (ctx.retryCount < functionDef.execution.retries) then
              match fuel with
              | 0 => (.error .fuelExhausted, reg1, ctx)
              | fuel' + 1 =>
                let fallbackName := functionDef.execution.fallback.getD ""
                match mapGet reg1.functions fallbackName with
                | none => (.ok executionResult, reg1, ctx)
                | some _ =>
                  let ctx1 := { ctx with
                    retryCount := ctx.retryCount + 1
                    fallbackChain := ctx.fallbackChain ++ [fallbackName] }
                  match executeFunction fuel' reg1 fallbackName ctx1 now with
                  | (.ok fallbackResult, reg2, ctx2) =>
                    (.ok { fallbackResult with fallbackUsed := some fallbackName }, reg2, ctx2)
                  | (.error _, reg2, ctx2) => (.ok executionResult, reg2, ctx2)
            else
              (.ok executionResult, recordExecution reg1 name executionResult, ctx)

/-- Embedding of executeFallback: when the declared fallback is not
registered, return the original failure; otherwise bump retryCount, push
the fallback name onto fallbackChain, re-enter executeFunction, tag a
returned result with fallbackUsed, and swallow a thrown error by returning
the original failure.  This is the code inlined into the fallback branch of
executeFunction above. -/
def executeFallback (fuel : Nat) (reg : FunctionRegistry) (functionDef : FunctionDefinition)
    (ctx : FunctionExecutionContext) (originalResult : FunctionExecutionResult) (now : Nat) :
    Except RegistryError FunctionExecutionResult × FunctionRegistry × FunctionExecutionContext :=
  let fallbackName := functionDef.execution.fallback.getD ""
  match mapGet reg.functions fallbackName with
  | none => (.ok originalResult, reg, ctx)
  | some _ =>
    let ctx1 := { ctx with
      retryCount := ctx.retryCount + 1
      fallbackChain := ctx.fallbackChain ++ [fallbackName] }
    match executeFunction fuel reg fallbackName ctx1 now with
    | (.ok fallbackResult, reg2, ctx2) =>
      (.ok { fallbackResult with fallbackUsed := some fallbackName }, reg2, ctx2)
    | (.error _, reg2, ctx2) => (.ok originalResult, reg2, ctx2)

/-- Embedding of registerFunction: duplicate names are rejected, otherwise
the definition is stored, indexed by category, its rate limiter initialised
with the configured per-minute limit over a 60000 ms window, and its
fallback link recorded when declared. -/
def registerFunction (reg : FunctionRegistry) (definition : FunctionDefinition) :
    Except RegistryError FunctionRegistry :=
  if (mapGet reg.functions definition.name).isSome then
    .error (.duplicateFunction definition.name)
  else
    let reg := { reg with functions := mapSet reg.functions definition.name definition }
    let cat := (mapGet reg.categories definition.category).getD []
    let cat := if definition.name ∈ cat then cat else cat ++ [definition.name]
    let reg := { reg with categories := mapSet reg.categories definition.category cat }
    let limiter : RateLimiter :=
      { requests := []
        limit := definition.execution.rateLimit.requestsPerMinute
        window := 60000 }
    let reg := { reg with rateLimiters := mapSet reg.rateLimiters definition.name limiter }
    let reg :=
      match definition.execution.fallback with
      | some fb => { reg with fallbackChains := mapSet reg.fallbackChains definition.name [fb] }
      | none => reg
    .ok reg

/-! ## Static configuration tables

Embedding of the model catalogue from lib/config/models.ts, the plan
catalogue from lib/config/plans.ts and the provider catalogue consumed by
the provider manager.  Monetary rates are embedded as rationals. -/
/-- Mirror of the Model record. -/
structure Model where
  id : String
  name : String
  provider : String
  contextWindow : Nat
  maxTokens : Nat
  supportsVision : Bool
  supportsFunctionCalling : Bool
  supportsWebSearch : Bool
  costPer1kInput : ℚ
  costPer1kOutput : ℚ
  speed : String
  quality : String
  enabled : Bool

/-- The models table. -/
def models : List (String × Model) :=
  [ ("gpt-4",
      { id := "gpt-4", name := "GPT-4", provider := "openai", contextWindow := 8192,
        maxTokens := 4096, supportsVision := false, supportsFunctionCalling := true,
        supportsWebSearch := false, costPer1kInput := 3/100, costPer1kOutput := 6/100,
        speed := "slow", quality := "excellent", enabled := true }),
    ("gpt-4-turbo",
      { id := "gpt-4-turbo", name := "GPT-4 Turbo", provider := "openai",
        contextWindow := 128000, maxTokens := 4096, supportsVision := true,
        supportsFunctionCalling := true, supportsWebSearch := false,
        costPer1kInput := 1/100, costPer1kOutput := 3/100,
        speed := "medium", quality := "excellent", enabled := true }),
    ("gpt-3.5-turbo",
      { id := "gpt-3.5-turbo", name := "GPT-3.5 Turbo", provider := "openai",
        contextWindow := 16385, maxTokens := 4096, supportsVision := false,
        supportsFunctionCalling := true, supportsWebSearch := false,
        costPer1kInput := 15/10000, costPer1kOutput := 2/1000,
        speed := "fast", quality := "good", enabled := true }),
    ("claude-3-opus",
      { id := "claude-3-opus", name := "Claude 3 Opus", provider := "anthropic",
        contextWindow := 200000, maxTokens := 4096, supportsVision := true,
        supportsFunctionCalling := true, supportsWebSearch := false,
        costPer1kInput := 15/1000, costPer1kOutput := 75/1000,
        speed := "slow", quality := "excellent", enabled := true }),
    ("claude-3-sonnet",
      { id := "claude-3-sonnet", name := "Claude 3 Sonnet", provider := "anthropic",
        contextWindow := 200000, maxTokens := 4096, supportsVision := true,
        supportsFunctionCalling := true, supportsWebSearch := false,
        costPer1kInput := 3/1000, costPer1kOutput := 15/1000,
        speed := "medium", quality := "excellent", enabled := true }),
    ("claude-3-haiku",
      { id := "claude-3-haiku", name := "Claude 3 Haiku", provider := "anthropic",
        contextWindow := 200000, maxTokens := 4096, supportsVision := true,
        supportsFunctionCalling := true, supportsWebSearch := false,
        costPer1kInput := 25/100000, costPer1kOutput := 125/100000,
        speed := "fast", quality := "good", enabled := true }),
    ("llama-3.1-70b-instruct",
      { id := "llama-3.1-70b-instruct", name := "Llama 3.1 70B", provider := "perplexity",
        contextWindow := 8192, maxTokens := 4096, supportsVision := false,
        supportsFunctionCalling := false, supportsWebSearch := true,
        costPer1kInput := 2/10000, costPer1kOutput := 2/10000,
        speed := "medium", quality := "good", enabled := true }),
    ("llama-3.1-8b-instruct",
      { id := "llama-3.1-8b-instruct", name := "Llama 3.1 8B", provider := "perplexity",
        contextWindow := 8192, maxTokens := 4096, supportsVision := false,
        supportsFunctionCalling := false, supportsWebSearch := true,
        costPer1kInput := 2/10000, costPer1kOutput := 2/10000,
        speed := "fast", quality := "basic", enabled := true }),
    ("gpt-4-openrouter",
      { id := "gpt-4-openrouter", name := "GPT-4 (OpenRouter)", provider := "openrouter",
        contextWindow := 8192, maxTokens := 4096, supportsVision := false,
        supportsFunctionCalling := true, supportsWebSearch := false,
        costPer1kInput := 2/100, costPer1kOutput := 4/100,
        speed := "slow", quality := "excellent", enabled := true }) ]

/-- Embedding of getModel: null for a missing or disabled model. -/
def getModel (id : String) : Option Model :=
  match mapGet models id with
  | none => none
  | some m => if m.enabled then some m else none

/-- The features block of a plan. -/
structure PlanFeatures where
  dailyMessageLimit : Nat
  contextSize : Nat
  visionEnabled : Bool
  visionSizeLimit : Nat
  webSearchEnabled : Bool
  webSearchLimit : Nat
  fileUploadEnabled : Bool
  fileSizeLimit : Nat
  memoryEnabled : Bool
  memoryRetentionDays : Nat
  prioritySupport : Bool
  customPersonalities : Bool

/-- The fallbackRules block of a plan. -/
structure PlanFallbackRules where
  contextReductionFactor : ℚ
  modelDowngradeChain : List String
  attachmentCompression : Bool
  memoryTruncation : Bool

/-- Mirror of the Plan record. -/
structure Plan where
  id : String
  name : String
  price : Nat
  currency : String
  billingCycle : String
  features : PlanFeatures
  fallbackRules : PlanFallbackRules
  enabled : Bool

/-- The plans table. -/
def plans : List (String × Plan) :=
  [ ("free",
      { id := "free", name := "Free", price := 0, currency := "INR",
        billingCycle := "monthly",
        features :=
          { dailyMessageLimit := 10, contextSize := 5, visionEnabled := false,
            visionSizeLimit := 0, webSearchEnabled := false, webSearchLimit := 0,
            fileUploadEnabled := false, fileSizeLimit := 0, memoryEnabled := false,
            memoryRetentionDays := 0, prioritySupport := false,
            customPersonalities := false }
        fallbackRules :=
          { contextReductionFactor := 1/2
            modelDowngradeChain := ["gpt-3.5-turbo", "claude-3-haiku"]
            attachmentCompression := true, memoryTruncation := true }
        enabled := true }),
    ("basic",
      { id := "basic", name := "Basic", price := 199, currency := "INR",
        billingCycle := "monthly",
        features :=
          { dailyMessageLimit := 50, contextSize := 15, visionEnabled := true,
            visionSizeLimit := 5 * 1024 * 1024, webSearchEnabled := true,
            webSearchLimit := 10, fileUploadEnabled := true,
            fileSizeLimit := 10 * 1024 * 1024, memoryEnabled := true,
            memoryRetentionDays := 30, prioritySupport := false,
            customPersonalities := false }
        fallbackRules :=
          { contextReductionFactor := 7/10
            modelDowngradeChain := ["gpt-4-turbo", "claude-3-sonnet", "gpt-3.5-turbo"]
            attachmentCompression := false, memoryTruncation := false }
        enabled := true }),
    ("pro",
      { id := "pro", name := "Pro", price := 999, currency := "INR",
        billingCycle := "monthly",
        features :=
          { dailyMessageLimit := 300, contextSize := 50, visionEnabled := true,
            visionSizeLimit := 25 * 1024 * 1024, webSearchEnabled := true,
            webSearchLimit := 100, fileUploadEnabled := true,
            fileSizeLimit := 100 * 1024 * 1024, memoryEnabled := true,
            memoryRetentionDays := 90, prioritySupport := true,
            customPersonalities := true }
        fallbackRules :=
          { contextReductionFactor := 9/10
            modelDowngradeChain := ["gpt-4", "claude-3-opus", "gpt-4-turbo"]
            attachmentCompression := false, memoryTruncation := false }
        enabled := true }),
    ("enterprise",
      { id := "enterprise", name := "Enterprise", price := 4999, currency := "INR",
        billingCycle := "monthly",
        features :=
          { dailyMessageLimit := 1000, contextSize := 100, visionEnabled := true,
            visionSizeLimit := 100 * 1024 * 1024, webSearchEnabled := true,
            webSearchLimit := 500, fileUploadEnabled := true,
            fileSizeLimit := 500 * 1024 * 1024, memoryEnabled := true,
            memoryRetentionDays := 365, prioritySupport := true,
            customPersonalities := true }
        fallbackRules :=
          { contextReductionFactor := 1
            modelDowngradeChain := ["gpt-4", "claude-3-opus"]
            attachmentCompression := false, memoryTruncation := false }
        enabled := true }) ]

/-- Embedding of getPlan: null for a missing or disabled plan. -/
def getPlan (id : String) : Option Plan :=
  match mapGet plans id with
  | none => none
  | some p => if p.enabled then some p else none

/-- Mirror of the provider configuration record consumed by the manager and
the adapter base class. -/
structure ProviderConfig where
  name : String
  models : List String
  requestsPerMinute : Nat
  tokensPerMinute : Nat
  costInputPer1k : ℚ
  costOutputPer1k : ℚ
  fallbackPriority : Nat
  enabled : Bool

/-- The provider configuration table. -/
def providersTable : List (String × ProviderConfig) :=
  [ ("openai",
      { name := "OpenAI", models := ["gpt-4", "gpt-4-turbo", "gpt-3.5-turbo"],
        requestsPerMinute := 60, tokensPerMinute := 90000,
        costInputPer1k := 3/100, costOutputPer1k := 6/100,
        fallbackPriority := 1, enabled := true }),
    ("anthropic",
      { name := "Anthropic", models := ["claude-3-opus", "claude-3-sonnet", "claude-3-haiku"],
        requestsPerMinute := 50, tokensPerMinute := 100000,
        costInputPer1k := 15/1000, costOutputPer1k := 75/1000,
        fallbackPriority := 2, enabled := true }),
    ("perplexity",
      { name := "Perplexity",
        models := ["llama-3.1-8b-instruct", "llama-3.1-70b-instruct", "mixtral-8x7b-instruct"],
        requestsPerMinute := 100, tokensPerMinute := 200000,
        costInputPer1k := 2/10000, costOutputPer1k := 2/10000,
        fallbackPriority := 3, enabled := true }),
    ("openrouter",
      { name := "OpenRouter", models := ["gpt-4", "claude-3-opus", "llama-3.1-70b"],
        requestsPerMinute := 80, tokensPerMinute := 150000,
        costInputPer1k := 2/100, costOutputPer1k := 4/100,
        fallbackPriority := 4, enabled := true }) ]

/-- Embedding of getProvider from the provider configuration module. -/
def getProviderConfig (name : String) : Option ProviderConfig :=
  match mapGet providersTable name with
  | none => none
  | some p => if p.enabled then some p else none

/-! ## Provider manager

Shallow embedding of the ProviderManager class: circuit breakers stored per
provider, provider selection with the plan-derived fallback chain, and the
call loop over the primary provider and its fallbacks.  Adapters perform
network calls in the source; here the adapter fleet is a parameter mapping
a provider name and its current invocation count to an outcome.  The state
carries two pieces of instrumentation, adapterCalls (how many times each
adapter has been invoked) and attemptLog (the providers handed to
callProvider, in order); neither influences control flow. -/
/-- Circuit status; the source strings are closed, open and half-open. -/
inductive CircuitStatus where
  | closed
  | opened
  | halfOpen
deriving DecidableEq

/-- Mirror of the circuit-breaker hash stored per provider. -/
structure CircuitBreakerState where
  status : CircuitStatus
  failureCount : Nat
  lastFailureTime : Option Nat
  nextAttemptTime : Option Nat
deriving DecidableEq

/-- The state returned by getCircuitBreakerState when nothing is stored. -/
def defaultCircuitState : CircuitBreakerState :=
  { status := .closed, failureCount := 0, lastFailureTime := none, nextAttemptTime := none }

/-- Response metadata assembled by the manager. -/
structure ResponseMetadata where
  processingTime : Nat
  fallbackUsed : Bool
  providerUsed : Option String
  fallbackReason : Option String
deriving DecidableEq

/-- A normalized provider response; the payload stands for the id, model,
choices and usage fields, which routing never inspects. -/
structure ProviderResponse where
  payload : String
  metadata : ResponseMetadata
deriving DecidableEq

/-- Errors thrown inside the manager.  The source wraps the final message
once more at the top-level catch; the constructors keep the causes
distinguishable. -/
inductive ManagerError where
  | modelNotFound (modelId : String)
  | forcedProviderNotFound (name : String)
  | noProviderForModel (modelId : String)
  | providerNotFound (name : String)
  | circuitOpen (name : String)
  | adapterFailure (name : String) (msg : String)
  | allProvidersFailed (modelId : String)
deriving DecidableEq

/-- Shared mutable state threaded through router calls: the per-provider
circuit-breaker hashes plus the two instrumentation fields. -/
structure RouterState where
  circuits : List (String × CircuitBreakerState)
  adapterCalls : List (String × Nat)
  attemptLog : List String
deriving DecidableEq

/-- A fresh router state. -/
def emptyRouterState : RouterState := ⟨[], [], []⟩

/-- The adapter fleet: outcome of invoking the named adapter when it has
already been invoked the given number of times. -/
def AdapterFleet : Type := String → Nat → Except String ProviderResponse

/-- The providers map built by initializeProviders: the OpenAI and
Perplexity adapters, in insertion order, each holding its configuration;
the other configured backends have no adapter yet. -/
def managerProviders : List (String × ProviderConfig) :=
  (match getProviderConfig "openai" with
    | some cfg => [("openai", cfg)]
    | none => []) ++
  (match getProviderConfig "perplexity" with
    | some cfg => [("perplexity", cfg)]
    | none => [])

/-- Embedding of supportsModel on an adapter instance. -/
def supportsModel (cfg : ProviderConfig) (modelId : String) : Bool :=
  cfg.models.contains modelId

/-- Embedding of findProviderForModel: first adapter, in map insertion
order, whose configuration lists the model. -/
def findProviderForModel (modelId : String) : Option String :=
  (managerProviders.find? (fun p => supportsModel p.2 modelId)).map (·.1)

/-- The selection result of selectProvider. -/
structure SelectedRoute where
  provider : String
  model : String
  fallbackChain : List String
deriving DecidableEq

/-- Mirror of the options object handed to the manager. -/
structure CallOptions where
  userId : Option String
  planId : Option String
  personality : Option String
  task : Option String
  forceProvider : Option String
deriving DecidableEq

/-- Embedding of selectProvider: resolve the model, honour a forced
provider, build the fallback chain by mapping the plan model-downgrade
chain to providers (dropping unknown models), pick the primary provider,
and exclude the primary from the chain. -/
def selectProvider (modelId : String) (options : CallOptions) :
    Except ManagerError SelectedRoute :=
  match getModel modelId with
  | none => .error (.modelNotFound modelId)
  | some _ =>
    match options.forceProvider with
    | some forced =>
      if (mapGet managerProviders forced).isSome then
        .ok { provider := forced, model := modelId, fallbackChain := [] }
      else
        .error (.forcedProviderNotFound forced)
    | none =>
      let fallbackChain :=
        match options.planId with
        | some planId =>
          match getPlan planId with
          | some plan =>
            plan.fallbackRules.modelDowngradeChain.filterMap
              (fun mid => Option.map Model.provider (getModel mid))
          | none => []
        | none => []
      match findProviderForModel modelId with
      | none => .error (.noProviderForModel modelId)
      | some provider =>
        .ok { provider := provider, model := modelId,
              fallbackChain := fallbackChain.filter (fun p => p ≠ provider) }

/-- Adapter invocation with instrumentation: bump the adapter counter and
consult the fleet at the previous count. -/
def invokeAdapter (adapters : AdapterFleet) (st : RouterState) (providerName : String) :
    Except ManagerError ProviderResponse × RouterState :=
  let count := (mapGet st.adapterCalls providerName).getD 0
  let st := { st with adapterCalls := mapSet st.adapterCalls providerName (count + 1) }
  match adapters providerName count with
  | .ok response => (.ok response, st)
  | .error msg => (.error (.adapterFailure providerName msg), st)

/-- Embedding of callProvider: unknown providers throw; with the circuit
breaker enabled, an open circuit whose stored next-attempt time is truthy
and still in the future throws without contacting the backend, an open
circuit past its cooldown is moved to half-open before the probe; then the
adapter is invoked.  The rate-limiting branch is an empty TODO in the
source. -/
def callProvider (adapters : AdapterFleet) (st : RouterState) (providerName : String)
    (now : Nat) : Except ManagerError ProviderResponse × RouterState :=
  let st := { st with attemptLog := st.attemptLog ++ [providerName] }
  match mapGet managerProviders providerName with
  | none => (.error (.providerNotFound providerName), st)
  | some _ =>
    let circuitState := (mapGet st.circuits providerName).getD defaultCircuitState
    match circuitState.status with
    | .opened =>
      let blocked :=
        match circuitState.nextAttemptTime with
        | some t => t ≠ 0 && decide (now < t)
        | none => false
      if blocked then
        (.error (.circuitOpen providerName), st)
      else
        let probing := { circuitState with status := CircuitStatus.halfOpen }
        let st := { st with circuits := mapSet st.circuits providerName probing }
        invokeAdapter adapters st providerName
    | _ => invokeAdapter adapters st providerName

/-- Embedding of updateCircuitBreaker with the fixed threshold 5 and
cooldown 60000 ms: success resets to a closed circuit with zero failures;
failure increments the count and opens the circuit (stamping the cooldown
deadline) once the count reaches the threshold. -/
def updateCircuitBreaker (st : RouterState) (providerName : String) (success : Bool)
    (now : Nat) : RouterState :=
  let currentState := (mapGet st.circuits providerName).getD defaultCircuitState
  let threshold := 5
  let cooldown := 60000
  if success then
    let reset : CircuitBreakerState :=
      { status := .closed, failureCount := 0, lastFailureTime := none,
        nextAttemptTime := none }
    { st with circuits := mapSet st.circuits providerName reset }
  else
    let newFailureCount := currentState.failureCount + 1
    let shouldOpen := decide (threshold ≤ newFailureCount)
    let tripped : CircuitBreakerState :=
      { status := if shouldOpen then CircuitStatus.opened else CircuitStatus.closed
        failureCount := newFailureCount
        lastFailureTime := some now
        nextAttemptTime := if shouldOpen then some (now + cooldown) else none }
    { st with circuits := mapSet st.circuits providerName tripped }

/-- The fallback loop inside call: try each fallback provider in order,
updating the circuit breaker after each attempt, and throw the
all-providers-failed error when the chain is exhausted. -/
def tryFallbacks (adapters : AdapterFleet) (st : RouterState) (chain : List String)
    (primary modelId : String) (now startTime : Nat) :
    Except ManagerError ProviderResponse × RouterState :=
  match chain with
  | [] => (.error (.allProvidersFailed modelId), st)
  | fallbackProvider :: rest =>
    match callProvider adapters st fallbackProvider now with
    | (.ok response, st1) =>
      let st2 := updateCircuitBreaker st1 fallbackProvider true now
      let meta :=
        { response.metadata with
          processingTime := now - startTime
          fallbackUsed := true
          providerUsed := some fallbackProvider
          fallbackReason := some ("Primary provider " ++ primary ++ " failed") }
      (.ok { response with metadata := meta }, st2)
    | (.error _, st1) =>
      let st2 := updateCircuitBreaker st1 fallbackProvider false now
      tryFallbacks adapters st2 rest primary modelId now startTime

/-- Embedding of ProviderManager.call: select the route, try the primary
provider (updating the breaker only on its success), then walk the
fallback chain.  Note that a primary-provider failure performs no
circuit-breaker update before moving on to the fallbacks. -/
def managerCall (adapters : AdapterFleet) (st : RouterState) (modelId : String)
    (options : CallOptions) (now : Nat) :
    Except ManagerError ProviderResponse × RouterState :=
  let startTime := now
  match selectProvider modelId options with
  | .error e => (.error e, st)
  | .ok route =>
    match callProvider adapters st route.provider now with
    | (.ok response, st1) =>
      let st2 := updateCircuitBreaker st1 route.provider true now
      let meta :=
        { response.metadata with
          processingTime := now - startTime
          fallbackUsed := false
          providerUsed := some route.provider }
      (.ok { response with metadata := meta }, st2)
    | (.error _, st1) =>
      tryFallbacks adapters st1 route.fallbackChain route.provider modelId now startTime

/-- Run a sequence of router calls, threading the shared state and
collecting each outcome; each entry is a request model, its options and
the time at which the call happens. -/
def runCalls (adapters : AdapterFleet) :
    List (String × CallOptions × Nat) → RouterState →
    List (Except ManagerError ProviderResponse) × RouterState
  | [], st => ([], st)
  | (modelId, options, now) :: rest, st =>
    let (outcome, st1) := managerCall adapters st modelId options now
    let (outcomes, st2) := runCalls adapters rest st1
    (outcome :: outcomes, st2)

/-! ## Adapter retry loop

Embedding of BaseProvider.withRetry and of the body of the OpenAI adapter
call.  The retried operation is a function from the attempt index to an
outcome; the random jitter is a parameter.  Alongside the outcome the
embedding reports how many times the operation was invoked and the list of
backoff delays slept between failed attempts. -/
/-- The retry loop from the given attempt index with the given number of
further attempts allowed.  Every caught failure is retried until the
attempt budget runs out; the loop does not inspect the kind of failure. -/
def withRetryFrom {α : Type} (operation : Nat → Except String α) (baseDelay : Nat)
    (jitter : Nat → Nat) : Nat → Nat → Except String α × Nat × List Nat
  | attempt, 0 =>
    match operation attempt with
    | .ok v => (.ok v, 1, [])
    | .error e => (.error e, 1, [])
  | attempt, remaining + 1 =>
    match operation attempt with
    | .ok v => (.ok v, 1, [])
    | .error _ =>
      let delay := baseDelay * 2 ^ attempt + jitter attempt
      let (outcome, calls, delays) :=
        withRetryFrom operation baseDelay jitter (attempt + 1) remaining
      (outcome, calls + 1, delay :: delays)

/-- Embedding of withRetry: attempts run from index 0 while attempt is at
most maxRetries, the delay before retrying attempt i is
baseDelay * 2 ^ i plus jitter, and when the final attempt fails its error
is rethrown. -/
def withRetry {α : Type} (operation : Nat → Except String α) (maxRetries baseDelay : Nat)
    (jitter : Nat → Nat) : Except String α × Nat × List Nat :=
  withRetryFrom operation baseDelay jitter 0 maxRetries

/-- A chat message as carried by provider requests and the router. -/
structure ChatMessage where
  role : String
  content : String
deriving DecidableEq

/-- The slice of a normalized provider request that validation reads. -/
structure ProviderRequest where
  model : String
  messages : List ChatMessage
deriving DecidableEq

/-- Embedding of the OpenAI adapter validateRequest: the model must be
listed by the configuration, the API key must be nonempty, and the message
list must be nonempty. -/
def validateRequest (cfg : ProviderConfig) (apiKey : String) (request : ProviderRequest) :
    Bool :=
  cfg.models.contains request.model && !(apiKey = "") && !request.messages.isEmpty

/-- Embedding of the OpenAI adapter call body: an invalid request throws
through handleError before any attempt is made; the stubbed rate-limit and
circuit checks return true; otherwise the API operation runs under
withRetry.  A retries option of zero is falsy in JavaScript, so it falls
back to the default of three, as does an absent option. -/
def openAICall {α : Type} (cfg : ProviderConfig) (apiKey : String)
    (request : ProviderRequest) (apiOperation : Nat → Except String α)
    (retriesOption : Option Nat) (jitter : Nat → Nat) :
    Except String α × Nat × List Nat :=
  if !(validateRequest cfg apiKey request) then
    (.error ("Provider " ++ cfg.name ++
      " error in chat completion: Invalid request for OpenAI provider"), 0, [])
  else
    let maxRetries :=
      match retriesOption with
      | some r => if r = 0 then 3 else r
      | none => 3
    match withRetry apiOperation maxRetries 1000 jitter with
    | (.ok v, calls, delays) => (.ok v, calls, delays)
    | (.error e, calls, delays) =>
      (.error ("Provider " ++ cfg.name ++ " error in chat completion: " ++ e), calls, delays)

/-! ## Event pipeline

Embedding of EventPipeline.processEvent: the fixed eight-stage order, the
per-stage step lists, and the abort-on-throw behaviour.  A step receives
the context and either returns the updated context or throws, carrying the
context as mutated up to the throw.  Stage start and completion
notifications are collected in an emission log.  Wall-clock stage durations
are recorded as zero since the embedding runs in zero model time. -/
/-- The eight pipeline stages, in the order of the source enum. -/
inductive PipelineStage where
  | ingest
  | validate
  | contextAnalysis
  | personalityRouting
  | functionExecution
  | memoryUpdate
  | responseGeneration
  | feedbackLoop
deriving DecidableEq

/-- Object.values of the stage enum: the fixed execution order. -/
def pipelineStageOrder : List PipelineStage :=
  [.ingest, .validate, .contextAnalysis, .personalityRouting,
   .functionExecution, .memoryUpdate, .responseGeneration, .feedbackLoop]

/-- Mirror of PipelineContext.  The engine never inspects the event payload. -/
structure PipelineCtx where
  stage : PipelineStage
  data : List (String × JsValue)
  errors : List String
  warnings : List String
  stageTimes : List (PipelineStage × Nat)
deriving DecidableEq

/-- A fresh per-request context, as built at the top of processEvent. -/
def initialPipelineCtx : PipelineCtx :=
  { stage := .ingest, data := [], errors := [], warnings := [], stageTimes := [] }

/-- A pipeline step: returns the updated context or throws, carrying the
context as mutated before the throw. -/
def PipelineStep : Type := PipelineCtx → Except (String × PipelineCtx) PipelineCtx

/-- The notifications emitted around stages and on pipeline errors. -/
inductive PipelineEmission where
  | stageStart (stage : PipelineStage)
  | stageComplete (stage : PipelineStage)
  | pipelineError (msg : String)
deriving DecidableEq

/-- Await the steps of one stage in sequence, stopping at the first
throw. -/
def runSteps : List PipelineStep → PipelineCtx → Except (String × PipelineCtx) PipelineCtx
  | [], ctx => .ok ctx
  | step :: rest, ctx =>
    match step ctx with
    | .ok ctx1 => runSteps rest ctx1
    | .error e => .error e

/-- The stage loop of processEvent over a given list of stages: set the
current stage, emit the start notification, run the steps, record the stage
duration and emit the completion notification; a thrown step error is
pushed onto the context error list, the error notification is emitted, and
the error is rethrown, skipping every remaining stage. -/
def processStages (pipelines : PipelineStage → List PipelineStep) :
    List PipelineStage → PipelineCtx → List PipelineEmission →
    Except String JsValue × List PipelineEmission × PipelineCtx
  | [], ctx, log => (.ok ((mapGet ctx.data "response").getD .null), log, ctx)
  | stage :: rest, ctx, log =>
    let ctx := { ctx with stage := stage }
    let log := log ++ [.stageStart stage]
    match runSteps (pipelines stage) ctx with
    | .ok ctx1 =>
      let ctx1 := { ctx1 with stageTimes := mapSet ctx1.stageTimes stage 0 }
      processStages pipelines rest ctx1 (log ++ [.stageComplete stage])
    | .error (msg, ctx1) =>
      let ctx2 := { ctx1 with errors := ctx1.errors ++ [msg] }
      (.error msg, log ++ [.pipelineError msg], ctx2)

/-- Embedding of processEvent: run the eight stages in their fixed order
over a fresh context. -/
def processEvent (pipelines : PipelineStage → List PipelineStep) :
    Except String JsValue × List PipelineEmission × PipelineCtx :=
  processStages pipelines pipelineStageOrder initialPipelineCtx []

/-- Embedding of the validateEvent step: a successful schema parse sets the
isValid flag; a parse failure is pushed onto the context error list and then
rethrown wrapped in the validation-failed message. -/
def validateEventStep (parseOutcome : Except String Unit) : PipelineStep := fun ctx =>
  match parseOutcome with
  | .ok _ => .ok { ctx with data := mapSet ctx.data "isValid" (.bool true) }
  | .error e =>
    .error ("Event validation failed: " ++ e, { ctx with errors := ctx.errors ++ [e] })

/-- Embedding of the enrichContext step: the user row is fetched and stored
first, then the session context; a rejection of either await throws. -/
def enrichContextStep (userContext sessionContext : Except String JsValue) :
    PipelineStep := fun ctx =>
  match userContext with
  | .error e => .error (e, ctx)
  | .ok u =>
    let ctx := { ctx with data := mapSet ctx.data "userContext" u }
    match sessionContext with
    | .error e => .error (e, ctx)
    | .ok s => .ok { ctx with data := mapSet ctx.data "sessionContext" s }

/-- Embedding of the analyzeUserContext step: three sequential store reads,
any rejection throws; the composed analysis object lies outside the
embedded value fragment and is stored as null. -/
def analyzeUserContextStep (behaviorPatterns emotionalState learningStyle :
    Except String JsValue) : PipelineStep := fun ctx =>
  match behaviorPatterns with
  | .error e => .error (e, ctx)
  | .ok _ =>
    match emotionalState with
    | .error e => .error (e, ctx)
    | .ok _ =>
      match learningStyle with
      | .error e => .error (e, ctx)
      | .ok _ => .ok { ctx with data := mapSet ctx.data "userAnalysis" .null }

/-- Embedding of the determinePersonality step: the local scoring runs
without awaiting, then the personality context fetch can reject; the chosen
personality and its context are stored. -/
def determinePersonalityStep (topChoice : String)
    (personalityContext : Except String JsValue) : PipelineStep := fun ctx =>
  let ctx := { ctx with data := mapSet ctx.data "selectedPersonality" (.str topChoice) }
  match personalityContext with
  | .error e => .error (e, ctx)
  | .ok p => .ok { ctx with data := mapSet ctx.data "personalityContext" p }

/-- Embedding of the executeFunction step of the pipeline: only active for
function-call events; the inner call is guarded by a try/catch, so its
failure is stored in the context and the step itself never throws. -/
def executeFunctionStep (eventType : String) (functionOutcome : Except String JsValue) :
    PipelineStep := fun ctx =>
  if eventType = "function_call" then
    match functionOutcome with
    | .ok result =>
      let updated := mapSet (mapSet ctx.data "functionResult" result) "executionSuccess" (.bool true)
      .ok { ctx with data := updated }
    | .error e =>
      let updated := mapSet (mapSet ctx.data "executionError" (.str e)) "executionSuccess" (.bool false)
      .ok { ctx with data := updated }
  else
    .ok ctx

/-- Embedding of the updateShortTermMemory step: the memory JSON is written
to the short-lived store with a one-hour TTL; a rejected write throws and
nothing catches it. -/
def updateShortTermMemoryStep (redisWrite : Except String Unit) : PipelineStep := fun ctx =>
  match redisWrite with
  | .error e => .error (e, ctx)
  | .ok _ => .ok ctx

/-- Embedding of the updateLongTermMemory step: the embedding call runs
first, then the semantic-store write; a rejection of either throws and
nothing catches it. -/
def updateLongTermMemoryStep (embedding : Except String JsValue)
    (chromaWrite : Except String Unit) : PipelineStep := fun ctx =>
  match embedding with
  | .error e => .error (e, ctx)
  | .ok _ =>
    match chromaWrite with
    | .error e => .error (e, ctx)
    | .ok _ => .ok ctx

/-- Outcomes of the external calls made by the implemented pipeline
steps. -/
structure PipelineEnv where
  eventParse : Except String Unit
  userContext : Except String JsValue
  sessionContext : Except String JsValue
  behaviorPatterns : Except String JsValue
  emotionalState : Except String JsValue
  learningStyle : Except String JsValue
  topChoice : String
  personalityContext : Except String JsValue
  eventType : String
  functionOutcome : Except String JsValue
  redisWrite : Except String Unit
  embedding : Except String JsValue
  chromaWrite : Except String Unit

/-- Embedding of initializePipelines restricted to the steps whose methods
exist in the class; the source also registers further step names (for
example deduplicateEvent, generateContextHash, generateResponse) that have
no corresponding method, and the validate stage has no registration at
all. -/
def initializePipelines (env : PipelineEnv) : PipelineStage → List PipelineStep
  | .ingest => [validateEventStep env.eventParse,
                enrichContextStep env.userContext env.sessionContext]
  | .validate => []
  | .contextAnalysis => [analyzeUserContextStep env.behaviorPatterns env.emotionalState
                          env.learningStyle]
  | .personalityRouting => [determinePersonalityStep env.topChoice env.personalityContext]
  | .functionExecution => [executeFunctionStep env.eventType env.functionOutcome]
  | .memoryUpdate => [updateShortTermMemoryStep env.redisWrite,
                      updateLongTermMemoryStep env.embedding env.chromaWrite]
  | .responseGeneration => []
  | .feedbackLoop => []

/-! ## Message router

Embedding of the usage-quota check and context assembly inside
MessageRouter.routeMessage: validateUser, plan and personality resolution,
the task check, checkUsageLimits and buildContext.  The profile, usage,
history and memory stores are external collaborators passed as functions;
the personality catalogue is likewise passed as a lookup (its entries are
prose system prompts whose text plays no role here). -/
/-- The caller preference slice read by buildContext. -/
structure UserPreferences where
  memoryOptOut : Bool
deriving DecidableEq

/-- The caller profile slice read by routeMessage. -/
structure UserProfile where
  id : String
  plan : String
  preferences : UserPreferences
deriving DecidableEq

/-- The usage row read by checkUsageLimits. -/
structure UserUsage where
  dailyMessages : Nat
  lastResetDate : Option String
deriving DecidableEq

/-- The outcome of checkUsageLimits. -/
structure UsageCheck where
  fallbackApplied : Bool
  contextReduction : ℚ
deriving DecidableEq

/-- Embedding of checkUsageLimits.  Calendar days are strings standing for
toDateString values.  On a new day the counters are reset (the write is
reported in the second component) and no fallback applies; once the daily
message count reaches the plan limit the soft fallback is reported with
the plan contextReductionFactor; otherwise no fallback. -/
def checkUsageLimits (usage : UserUsage) (plan : Plan) (today : String) :
    UsageCheck × Bool :=
  if usage.lastResetDate ≠ some today then
    ({ fallbackApplied := false, contextReduction := 1 }, true)
  else if plan.features.dailyMessageLimit ≤ usage.dailyMessages then
    ({ fallbackApplied := true,
       contextReduction := plan.fallbackRules.contextReductionFactor }, false)
  else
    ({ fallbackApplied := false, contextReduction := 1 }, false)

/-- A memory atom as surfaced into the context. -/
structure MemoryAtom where
  content : String
deriving DecidableEq

/-- The slice of RouteMessageRequest read by the embedded steps; task is
the clientContext task option (an empty string is falsy and falls back to
chat, as in the source). -/
structure RouteRequest where
  userId : String
  personalityId : String
  message : String
  conversationId : Option String
  task : Option String
deriving DecidableEq

/-- The personality slice read by the embedded steps. -/
structure Personality where
  id : String
  systemPrompt : String
  allowedTasks : List String
  defaultModel : String
  maxTokens : Nat
deriving DecidableEq

/-- Embedding of formatMemoryContext. -/
def formatMemoryContext (memories : List MemoryAtom) : String :=
  String.intercalate "\n" (memories.map (fun memory => "- " ++ memory.content))

/-- Embedding of buildContext: system prompt first, then, when a
conversation is given, the history fetched with the plan contextSize as the
window, then the user message; when memories are enabled and present, a
synthetic system entry is spliced in at position 1.  Note the requested
history window is plan.features.contextSize itself &mdash; no usage-based
reduction is applied. -/
def buildContext (getHistory : String → Nat → List ChatMessage)
    (getMemories : String → String → List MemoryAtom)
    (request : RouteRequest) (personality : Personality) (plan : Plan)
    (user : UserProfile) : List ChatMessage × List MemoryAtom :=
  let messages : List ChatMessage := [{ role := "system", content := personality.systemPrompt }]
  let messages :=
    match request.conversationId with
    | some conversationId => messages ++ getHistory conversationId plan.features.contextSize
    | none => messages
  let messages := messages ++ [{ role := "user", content := request.message }]
  let memories :=
    if plan.features.memoryEnabled && !user.preferences.memoryOptOut then
      getMemories request.message user.id
    else []
  if memories.isEmpty then
    (messages, memories)
  else
    let memoryContext := formatMemoryContext memories
    (messages.take 1 ++
      [{ role := "system",
         content := "Relevant context from previous conversations:\n" ++ memoryContext }] ++
      messages.drop 1, memories)

/-- The getConversationHistory method as it stands in the source: a stub
returning no history regardless of the requested window. -/
def getConversationHistoryStub : String → Nat → List ChatMessage := fun _ _ => []

/-- The getRelevantMemories method as it stands in the source: a stub
returning no memories. -/
def getRelevantMemoriesStub : String → String → List MemoryAtom := fun _ _ => []

/-- The typed errors thrown by the early steps of routeMessage. -/
inductive RouteError where
  | userNotFound
  | invalidPlan
  | invalidPersonality
  | taskNotAllowed (personalityId task : String)
deriving DecidableEq

/-- Embedding of steps 1 to 4 of routeMessage: validate the caller, resolve
the plan, resolve the personality, check the requested task against its
allowed tasks, run the usage check, and assemble the context.  As in the
source, the usage-check outcome &mdash; fallbackApplied and
contextReduction &mdash; is not handed to buildContext. -/
def routeMessagePrefix (getProfile : String → Option UserProfile)
    (getUsage : String → UserUsage) (getPersonality : String → Option Personality)
    (getHistory : String → Nat → List ChatMessage)
    (getMemories : String → String → List MemoryAtom)
    (today : String) (request : RouteRequest) :
    Except RouteError (UsageCheck × List ChatMessage × List MemoryAtom) :=
  match getProfile request.userId with
  | none => .error .userNotFound
  | some user =>
    match getPlan user.plan with
    | none => .error .invalidPlan
    | some plan =>
      match getPersonality request.personalityId with
      | none => .error .invalidPersonality
      | some personality =>
        let task :=
          match request.task with
          | some t => if t = "" then "chat" else t
          | none => "chat"
        if !(personality.allowedTasks.contains task) then
          .error (.taskNotAllowed request.personalityId task)
        else
          let (usageCheck, _) := checkUsageLimits (getUsage user.id) plan today
          let (messages, memories) :=
            buildContext getHistory getMemories request personality plan user
          .ok (usageCheck, messages, memories)

/-- Sample execution context for concrete scenarios. -/
def sampleCtx : FunctionExecutionContext :=
  { functionId := "id-a", userId := "caller", sessionId := "session",
    parameters := [], startTime := 0, retryCount := 0, fallbackChain := [] }

/-- The context after one fallback hop: retryCount bumped and the fallback
name pushed, as performed by executeFallback. -/
def ctxAfterHop (ctx : FunctionExecutionContext) (fallbackName : String) :
    FunctionExecutionContext :=
  { ctx with retryCount := ctx.retryCount + 1,
             fallbackChain := ctx.fallbackChain ++ [fallbackName] }

/-- A capability whose handler fails fast, with capability b declared as
fallback. -/
def defA : FunctionDefinition :=
  { id := "id-a", name := "a", description := "primary", version := "1",
    category := "utility",
    execution := { timeout := 30000, retries := 3, fallback := some "b",
                   requiresAuth := false,
                   rateLimit := { requestsPerMinute := 60, burstLimit := 10 } },
    tags := [], handler := fun _ => .settles 5 (.error "boom") }

/-- A capability whose handler succeeds quickly. -/
def defB : FunctionDefinition :=
  { id := "id-b", name := "b", description := "fallback", version := "1",
    category := "utility",
    execution := { timeout := 30000, retries := 3, fallback := none,
                   requiresAuth := false,
                   rateLimit := { requestsPerMinute := 60, burstLimit := 10 } },
    tags := [], handler := fun _ => .settles 7 (.ok (.str "rescued")) }

/-- A capability whose handler never settles, with capability b declared as
fallback. -/
def defHang : FunctionDefinition :=
  { id := "id-h", name := "h", description := "hangs", version := "1",
    category := "utility",
    execution := { timeout := 30000, retries := 3, fallback := some "b",
                   requiresAuth := false,
                   rateLimit := { requestsPerMinute := 60, burstLimit := 10 } },
    tags := [], handler := fun _ => .never }

/-- A capability whose handler never settles and that declares no
fallback. -/
def defHangSolo : FunctionDefinition :=
  { id := "id-hs", name := "hs", description := "hangs", version := "1",
    category := "utility",
    execution := { timeout := 30000, retries := 3, fallback := none,
                   requiresAuth := false,
                   rateLimit := { requestsPerMinute := 60, burstLimit := 10 } },
    tags := [], handler := fun _ => .never }

/-- Registry holding a and b. -/
def regAB : FunctionRegistry :=
  match registerFunction emptyRegistry defA with
  | .ok reg =>
    match registerFunction reg defB with
    | .ok reg2 => reg2
    | .error _ => emptyRegistry
  | .error _ => emptyRegistry

/-- The registry reached after the rate-limit admission of the first call
into regAB. -/
def regAB1 : FunctionRegistry := (checkRateLimit regAB defA sampleCtx 0).2

/-- Registry holding h (hanging, fallback b) and b. -/
def regHB : FunctionRegistry :=
  match registerFunction emptyRegistry defHang with
  | .ok reg =>
    match registerFunction reg defB with
    | .ok reg2 => reg2
    | .error _ => emptyRegistry
  | .error _ => emptyRegistry

/-- Registry holding only the hanging capability without fallback. -/
def regHS : FunctionRegistry :=
  match registerFunction emptyRegistry defHangSolo with
  | .ok reg => reg
  | .error _ => emptyRegistry

/-- The registry reached after the rate-limit admission of a call into
regHS. -/
def regHS1 : FunctionRegistry := (checkRateLimit regHS defHangSolo sampleCtx 0).2

/-- Whether an execution outcome was delivered as a structured result
rather than raised as an exception. -/
def deliveredStructured : Except RegistryError FunctionExecutionResult → Bool
  | .ok _ => true
  | .error _ => false

/-- The success flag of a structured outcome, when one was delivered. -/
def structuredSuccess : Except RegistryError FunctionExecutionResult → Option Bool
  | .ok r => some r.success
  | .error _ => none

/-- The per-caller key used by the in-memory rate limiter. -/
def rateLimitKey (ctx : FunctionExecutionContext) (functionDef : FunctionDefinition) :
    String :=
  ctx.userId ++ ":" ++ functionDef.name

/-- The stored timestamp list for a key pruned to the current window. -/
def prunedRequests (limiter : RateLimiter) (key : String) (now : Nat) : List Nat :=
  ((mapGet limiter.requests key).getD []).filter (fun time => now - time < limiter.window)

/-- The limiter after an admission records the new timestamp. -/
def limiterAfterAdmit (limiter : RateLimiter) (key : String) (now : Nat) : RateLimiter :=
  { limiter with requests := mapSet limiter.requests key (prunedRequests limiter key now ++ [now]) }

/-- A concrete auth-requiring capability for the C10 witness. -/
def defAuth : FunctionDefinition :=
  { id := "id-auth", name := "secure", description := "needs auth", version := "1",
    category := "utility",
    execution := { timeout := 30000, retries := 3, fallback := none,
                   requiresAuth := true,
                   rateLimit := { requestsPerMinute := 60, burstLimit := 10 } },
    tags := [], handler := fun _ => .settles 5 (.ok .null) }

/-- Registry holding the auth-requiring capability. -/
def regAuth : FunctionRegistry :=
  match registerFunction emptyRegistry defAuth with
  | .ok reg => reg
  | .error _ => emptyRegistry

/-- A context with no caller. -/
def anonCtx : FunctionExecutionContext := { sampleCtx with userId := "" }

/-- A capability with a one-per-window rate limit for the C6 witness. -/
def defOnce : FunctionDefinition :=
  { id := "id-once", name := "once", description := "limited", version := "1",
    category := "utility",
    execution := { timeout := 30000, retries := 3, fallback := none,
                   requiresAuth := false,
                   rateLimit := { requestsPerMinute := 1, burstLimit := 1 } },
    tags := [], handler := fun _ => .settles 5 (.ok .null) }

/-- Registry holding the one-per-window capability. -/
def regOnce : FunctionRegistry :=
  match registerFunction emptyRegistry defOnce with
  | .ok reg => reg
  | .error _ => emptyRegistry

/-- Options selecting the free plan. -/
def freeOptions : CallOptions :=
  { userId := none, planId := some "free", personality := none, task := none,
    forceProvider := none }

/-- A fleet whose openai adapter fails on its first five invocations and
then recovers; every other adapter always fails. -/
def probeFleet : AdapterFleet := fun name k =>
  if name = "openai" then
    (if k < 5 then .error "boom"
     else .ok { payload := "ok",
                metadata := { processingTime := 0, fallbackUsed := false,
                              providerUsed := none, fallbackReason := none } })
  else .error "boom"

/-- State after one llama/free call against probeFleet. -/
def probeState1 : RouterState :=
  (runCalls probeFleet [("llama-3.1-70b-instruct", freeOptions, 0)] emptyRouterState).2

/-- State after five llama/free calls at time zero against probeFleet. -/
def probeState5 : RouterState :=
  (runCalls probeFleet (List.replicate 5 ("llama-3.1-70b-instruct", freeOptions, 0))
    emptyRouterState).2

/-- State after a sixth, circuit-blocked call at 59999 ms. -/
def probeState6 : RouterState :=
  (managerCall probeFleet probeState5 "llama-3.1-70b-instruct" freeOptions 59999).2

-- ### C9: pipeline failure propagation
/-- An environment in which every external call succeeds except the
short-term-memory write. -/
def envRedisFail : PipelineEnv :=
  { eventParse := .ok (), userContext := .ok .null, sessionContext := .ok .null,
    behaviorPatterns := .ok .null, emotionalState := .ok (.str "neutral"),
    learningStyle := .ok .null, topChoice := "mitra", personalityContext := .ok .null,
    eventType := "chat", functionOutcome := .ok .null,
    redisWrite := .error "redis down", embedding := .ok .null, chromaWrite := .ok () }

-- ### C1: quota soft degrade
/-- A history store returning exactly the requested number of messages,
used to observe the requested window size. -/
def histN : String → Nat → List ChatMessage := fun _ n =>
  (List.range n).map (fun i => { role := "user", content := toString i })

/-- A personality allowing the default chat task. -/
def chatPersona : Personality :=
  { id := "mitra", systemPrompt := "sys", allowedTasks := ["chat"],
    defaultModel := "claude-3-haiku", maxTokens := 2000 }

/-- A free-plan caller. -/
def freeUser : UserProfile :=
  { id := "u1", plan := "free", preferences := { memoryOptOut := false } }

/-- Usage at the free-plan daily limit of ten messages, same calendar day. -/
def quotaUsage : UserUsage := { dailyMessages := 10, lastResetDate := some "Mon Jan 06 2025" }

/-- Fresh usage on the same calendar day. -/
def freshUsage : UserUsage := { dailyMessages := 0, lastResetDate := some "Mon Jan 06 2025" }

/-- A chat request carrying a conversation id. -/
def chatRequest : RouteRequest :=
  { userId := "u1", personalityId := "mitra", message := "hello",
    conversationId := some "c1", task := none }

/-- The context assembled for the free plan with the full five-message
window: system prompt, five history messages, user message. -/
def fullContext : List ChatMessage :=
  { role := "system", content := "sys" } ::
    (List.range 5).map (fun i => { role := "user", content := toString i }) ++
    [{ role := "user", content := "hello" }]

/-! ## Theorems -/

@[simp] theorem mapGet_nil {κ α : Type} [DecidableEq κ] (key : κ) :
    mapGet ([] : List (κ × α)) key = none := rfl

@[simp] theorem mapGet_cons {κ α : Type} [DecidableEq κ] (k : κ) (v : α)
    (rest : List (κ × α)) (key : κ) :
    mapGet ((k, v) :: rest) key = if k = key then some v else mapGet rest key := rfl

theorem mapGet_mapSet_self {κ α : Type} [DecidableEq κ] (m : List (κ × α)) (key : κ) (value : α) :
    mapGet (mapSet m key value) key = some value := by
  induction m with
  | nil => simp [mapGet, mapSet]
  | cons head rest ih =>
    obtain ⟨k, v⟩ := head
    by_cases h : k = key
    · simp [mapGet, mapSet, h]
    · simp [mapGet, mapSet, h, ih]

theorem mapGet_mapSet_ne {κ α : Type} [DecidableEq κ] (m : List (κ × α)) (key other : κ)
    (value : α) (h : key ≠ other) :
    mapGet (mapSet m key value) other = mapGet m other := by
  induction m with
  | nil => simp [mapGet, mapSet, h]
  | cons head rest ih =>
    obtain ⟨k, v⟩ := head
    by_cases hk : k = key
    · subst hk; simp [mapGet, mapSet, h]
    · simp only [mapSet, if_neg hk, mapGet_cons]
      by_cases ho : k = other
      · simp [ho]
      · simp [ho, ih]

-- ### helper lemmas
theorem deliveredStructured_exists (o : Except RegistryError FunctionExecutionResult)
    (h : deliveredStructured o = true) : ∃ r, o = .ok r := by
  cases o with
  | ok r => exact ⟨r, rfl⟩
  | error e => simp [deliveredStructured] at h

theorem checkRateLimit_functions (reg : FunctionRegistry) (d : FunctionDefinition)
    (ctx : FunctionExecutionContext) (now : Nat) :
    (checkRateLimit reg d ctx now).2.functions = reg.functions := by
  unfold checkRateLimit
  cases mapGet reg.rateLimiters d.name with
  | none => rfl
  | some limiter => dsimp only; split <;> rfl

theorem executeFallback_structured (fuel : Nat) (reg : FunctionRegistry)
    (d : FunctionDefinition) (ctx : FunctionExecutionContext)
    (orig : FunctionExecutionResult) (now : Nat) :
    deliveredStructured (executeFallback fuel reg d ctx orig now).1 = true := by
  unfold executeFallback
  dsimp only
  split
  · rfl
  · split <;> rfl

theorem executeFunction_notFound (fuel : Nat) (reg : FunctionRegistry) (name : String)
    (ctx : FunctionExecutionContext) (now : Nat)
    (h : mapGet reg.functions name = none) :
    (executeFunction fuel reg name ctx now).1 = .error (.functionNotFound name) := by
  unfold executeFunction
  rw [h]

/-- Auth guard is false when the requirement implies a present caller. -/
theorem authGuard_false (functionDef : FunctionDefinition) (ctx : FunctionExecutionContext)
    (hauth : functionDef.execution.requiresAuth = true → ctx.userId ≠ "") :
    (functionDef.execution.requiresAuth && decide (ctx.userId = "")) = false := by
  cases hra : functionDef.execution.requiresAuth with
  | false => rfl
  | true => simp [hauth hra]

theorem executeFunction_guarded_structured (fuel : Nat) (reg : FunctionRegistry)
    (name : String) (functionDef : FunctionDefinition) (ctx : FunctionExecutionContext)
    (now : Nat) (hfuel : 1 ≤ fuel)
    (hdef : mapGet reg.functions name = some functionDef)
    (hrl : (checkRateLimit reg functionDef ctx now).1 = true)
    (hauth : functionDef.execution.requiresAuth = true → ctx.userId ≠ "") :
    deliveredStructured (executeFunction fuel reg name ctx now).1 = true := by
  obtain ⟨f, rfl⟩ : ∃ f, fuel = f + 1 :=
    ⟨fuel - 1, (Nat.succ_pred_eq_of_pos hfuel).symm⟩
  unfold executeFunction
  rw [hdef]
  dsimp only
  rcases hcr : checkRateLimit reg functionDef ctx now with ⟨admitted, reg1⟩
  have hadm : admitted = true := by rw [hcr] at hrl; exact hrl
  subst hadm
  simp only [Bool.not_true, Bool.false_eq_true, if_false]
  rw [authGuard_false functionDef ctx hauth]
  simp only [Bool.false_eq_true, if_false]
  split
  · rfl
  · split
    · split
      · rfl
      · split <;> rfl
    · rfl

/-- Unfolding lemma: once the guards pass and the race fails while a
fallback is declared and retries remain, executeFunction defers to
executeFallback. -/
theorem executeFunction_fallback_step (fuel : Nat) (reg reg1 : FunctionRegistry)
    (functionDef : FunctionDefinition) (name : String) (ctx : FunctionExecutionContext)
    (now elapsed : Nat) (msg : String)
    (hdef : mapGet reg.functions name = some functionDef)
    (hcr : checkRateLimit reg functionDef ctx now = (true, reg1))
    (hauth : functionDef.execution.requiresAuth = true → ctx.userId ≠ "")
    (hrace : raceOutcome (functionDef.handler ctx) functionDef.execution.timeout
      = (elapsed, .error msg))
    (hfb : functionDef.execution.fallback.isSome = true)
    (hretry : ctx.retryCount < functionDef.execution.retries) :
    executeFunction (fuel + 1) reg name ctx now =
      executeFallback fuel reg1 functionDef ctx
        { success := false, result := .null, error := some msg, executionTime := 0,
          metadata := none, fallbackUsed := none } now := by
  unfold executeFunction
  rw [hdef]
  dsimp only
  rw [hcr]
  dsimp only
  rw [authGuard_false functionDef ctx hauth]
  simp only [Bool.not_true, Bool.false_eq_true, if_false]
  rw [hrace]
  dsimp only
  rw [hfb]
  simp only [Bool.true_and, decide_eq_true_eq, hretry, if_true]
  rfl

/-- Unfolding lemma: guards passed and the handler wins the race. -/
theorem executeFunction_success_step (fuel : Nat) (reg reg1 : FunctionRegistry)
    (functionDef : FunctionDefinition) (name : String) (ctx : FunctionExecutionContext)
    (now elapsed : Nat) (value : JsValue)
    (hdef : mapGet reg.functions name = some functionDef)
    (hcr : checkRateLimit reg functionDef ctx now = (true, reg1))
    (hauth : functionDef.execution.requiresAuth = true → ctx.userId ≠ "")
    (hrace : raceOutcome (functionDef.handler ctx) functionDef.execution.timeout
      = (elapsed, .ok value)) :
    executeFunction fuel reg name ctx now =
      (.ok { success := true, result := value, error := none, executionTime := elapsed,
             metadata := some { functionId := functionDef.id, version := functionDef.version,
                                category := functionDef.category, parameters := ctx.parameters },
             fallbackUsed := none },
       recordExecution reg1 name
         { success := true, result := value, error := none, executionTime := elapsed,
           metadata := some { functionId := functionDef.id, version := functionDef.version,
                              category := functionDef.category, parameters := ctx.parameters },
           fallbackUsed := none }, ctx) := by
  unfold executeFunction
  rw [hdef]
  dsimp only
  rw [hcr]
  dsimp only
  rw [authGuard_false functionDef ctx hauth]
  simp only [Bool.not_true, Bool.false_eq_true, if_false]
  rw [hrace]

/-- Unfolding lemma: guards passed, race failed, and no rescue is possible
(no fallback or retries exhausted): the failure result is returned and
recorded. -/
theorem executeFunction_failure_step (fuel : Nat) (reg reg1 : FunctionRegistry)
    (functionDef : FunctionDefinition) (name : String) (ctx : FunctionExecutionContext)
    (now elapsed : Nat) (msg : String)
    (hdef : mapGet reg.functions name = some functionDef)
    (hcr : checkRateLimit reg functionDef ctx now = (true, reg1))
    (hauth : functionDef.execution.requiresAuth = true → ctx.userId ≠ "")
    (hrace : raceOutcome (functionDef.handler ctx) functionDef.execution.timeout
      = (elapsed, .error msg))
    (hnofb : functionDef.execution.fallback = none ∨
      functionDef.execution.retries ≤ ctx.retryCount) :
    executeFunction fuel reg name ctx now =
      (.ok { success := false, result := .null, error := some msg, executionTime := 0,
             metadata := none, fallbackUsed := none },
       recordExecution reg1 name
         { success := false, result := .null, error := some msg, executionTime := 0,
           metadata := none, fallbackUsed := none }, ctx) := by
  unfold executeFunction
  rw [hdef]
  dsimp only
  rw [hcr]
  dsimp only
  rw [authGuard_false functionDef ctx hauth]
  simp only [Bool.not_true, Bool.false_eq_true, if_false]
  rw [hrace]
  dsimp only
  have hguard : (functionDef.execution.fallback.isSome
      && decide (ctx.retryCount < functionDef.execution.retries)) = false := by
    rcases hnofb with h | h
    · simp [h]
    · simp [Nat.not_lt.mpr h]
  rw [hguard]
  simp only [Bool.false_eq_true, if_false]

/-- C3 counterexample: executing an unregistered capability name raises the
not-found error; it is not delivered as a structured result, contrary to
the claim that every capability failure reaches the caller as a structured
result. -/
theorem executeFunction_unknown_name_raises :
    (executeFunction 5 emptyRegistry "missing" sampleCtx 0).1
      = .error (.functionNotFound "missing") ∧
    deliveredStructured (executeFunction 5 emptyRegistry "missing" sampleCtx 0).1 = false :=
  ⟨rfl, rfl⟩

/-- C3 (amended): an unregistered name raises precisely the not-found
error, never an unrelated exception; and once the admission checks pass
(definition found, rate limit admits, auth satisfied), every outcome is
delivered as a structured result, never raised. -/
theorem executeFunction_failure_delivery (fuel : Nat) (reg : FunctionRegistry)
    (name : String) (ctx : FunctionExecutionContext) (now : Nat) (hfuel : 1 ≤ fuel) :
    (mapGet reg.functions name = none →
      (executeFunction fuel reg name ctx now).1 = .error (.functionNotFound name)) ∧
    (∀ functionDef, mapGet reg.functions name = some functionDef →
      (checkRateLimit reg functionDef ctx now).1 = true →
      (functionDef.execution.requiresAuth = true → ctx.userId ≠ "") →
      ∃ r, (executeFunction fuel reg name ctx now).1 = .ok r) := by
  constructor
  · exact executeFunction_notFound fuel reg name ctx now
  · intro functionDef hdef hrl hauth
    exact deliveredStructured_exists _
      (executeFunction_guarded_structured fuel reg name functionDef ctx now hfuel hdef hrl hauth)

/-- Witness for C3 at fuel 1 on the empty registry and on regAB. -/
theorem executeFunction_failure_delivery_witness :
    (executeFunction 1 emptyRegistry "missing" sampleCtx 0).1
      = .error (.functionNotFound "missing") ∧
    ∃ r, (executeFunction 1 regAB "a" sampleCtx 0).1 = .ok r :=
  ⟨(executeFunction_failure_delivery 1 emptyRegistry "missing" sampleCtx 0 (by decide)).1 rfl,
   (executeFunction_failure_delivery 1 regAB "a" sampleCtx 0 (by decide)).2 defA rfl rfl
     (by intro h; exact absurd h (by decide))⟩

/-- C5 counterexample: capability a falls back to b; the hop recorded in
fallbackChain is the fallback name b, not the current capability name a as
the claim states. -/
theorem executeFallback_records_fallback_name :
    (executeFunction 5 regAB "a" sampleCtx 0).2.2.fallbackChain = ["b"] ∧
    (executeFunction 5 regAB "a" sampleCtx 0).2.2.fallbackChain ≠ ["a"] :=
  ⟨rfl, by decide⟩

/-- C5 (amended): when the handler fails with a declared fallback and
retries remaining, executeFunction bumps retryCount, appends the fallback
capability name (not the current one) to fallbackChain, recursively
executes the fallback and returns its result tagged with fallbackUsed;
with no fallback declared or retries exhausted, the failure result is
returned unchanged. -/
theorem executeFunction_fallback_shape (fuel : Nat) (reg reg1 : FunctionRegistry)
    (name fallbackName : String) (functionDef fallbackDef : FunctionDefinition)
    (ctx : FunctionExecutionContext) (now elapsed : Nat) (msg : String)
    (hdef : mapGet reg.functions name = some functionDef)
    (hcr : checkRateLimit reg functionDef ctx now = (true, reg1))
    (hauth : functionDef.execution.requiresAuth = true → ctx.userId ≠ "")
    (hrace : raceOutcome (functionDef.handler ctx) functionDef.execution.timeout
      = (elapsed, .error msg)) :
    (∀ (tf : Nat) (value : JsValue),
      functionDef.execution.fallback = some fallbackName →
      ctx.retryCount < functionDef.execution.retries →
      mapGet reg1.functions fallbackName = some fallbackDef →
      (checkRateLimit reg1 fallbackDef (ctxAfterHop ctx fallbackName) now).1 = true →
      (fallbackDef.execution.requiresAuth = true → ctx.userId ≠ "") →
      raceOutcome (fallbackDef.handler (ctxAfterHop ctx fallbackName))
          fallbackDef.execution.timeout = (tf, .ok value) →
      ∃ regFinal, executeFunction (fuel + 1) reg name ctx now =
        (.ok { success := true, result := value, error := none, executionTime := tf,
               metadata := some { functionId := fallbackDef.id,
                                  version := fallbackDef.version,
                                  category := fallbackDef.category,
                                  parameters := ctx.parameters },
               fallbackUsed := some fallbackName },
         regFinal, ctxAfterHop ctx fallbackName)) ∧
    (functionDef.execution.fallback = none ∨
        functionDef.execution.retries ≤ ctx.retryCount →
      executeFunction (fuel + 1) reg name ctx now =
        (.ok { success := false, result := .null, error := some msg, executionTime := 0,
               metadata := none, fallbackUsed := none },
         recordExecution reg1 name
           { success := false, result := .null, error := some msg, executionTime := 0,
             metadata := none, fallbackUsed := none }, ctx)) := by
  constructor
  · intro tf value hfb hretry hfbdef hcr2 hauth2 hrace2
    rw [executeFunction_fallback_step fuel reg reg1 functionDef name ctx now elapsed msg
      hdef hcr hauth hrace (by rw [hfb]; rfl) hretry]
    unfold executeFallback
    have hname : functionDef.execution.fallback.getD "" = fallbackName := by rw [hfb]; rfl
    rw [hname]
    dsimp only
    rw [hfbdef]
    dsimp only
    rcases hcr2p : checkRateLimit reg1 fallbackDef (ctxAfterHop ctx fallbackName) now
      with ⟨adm2, reg2⟩
    have hadm2 : adm2 = true := by rw [hcr2p] at hcr2; exact hcr2
    subst hadm2
    have hrec := executeFunction_success_step fuel reg1 reg2 fallbackDef fallbackName
      (ctxAfterHop ctx fallbackName) now tf value hfbdef hcr2p hauth2 hrace2
    have hrec2 : executeFunction fuel reg1 fallbackName { ctx with retryCount := ctx.retryCount + 1, fallbackChain := ctx.fallbackChain ++ [fallbackName] } now = executeFunction fuel reg1 fallbackName (ctxAfterHop ctx fallbackName) now := rfl
    rw [hrec2, hrec]
    exact ⟨_, rfl⟩
  · intro hnofb
    exact executeFunction_failure_step (fuel + 1) reg reg1 functionDef name ctx now elapsed
      msg hdef hcr hauth hrace hnofb

/-- Witness for C5: capability a (failing, fallback b) rescued by b in
regAB, and the same capability with retries exhausted returning its failure
unchanged. -/
theorem executeFunction_fallback_shape_witness :
    (∃ regFinal, executeFunction 5 regAB "a" sampleCtx 0 =
      (.ok { success := true, result := .str "rescued", error := none, executionTime := 7,
             metadata := some { functionId := "id-b", version := "1",
                                category := "utility", parameters := [] },
             fallbackUsed := some "b" },
       regFinal, ctxAfterHop sampleCtx "b")) := by
  have h := (executeFunction_fallback_shape 4 regAB regAB1 "a" "b" defA defB sampleCtx 0 5
    "boom" rfl rfl (by intro h; exact absurd h (by decide)) rfl).1 7 (.str "rescued") rfl
    (by decide) rfl rfl (by intro h; exact absurd h (by decide)) rfl
  exact h

theorem raceOutcome_timeout (behavior : HandlerBehavior) (timeoutMs : Nat)
    (h : ∀ t r, behavior = .settles t r → timeoutMs ≤ t) :
    raceOutcome behavior timeoutMs = (timeoutMs, .error (timeoutMessage timeoutMs)) := by
  cases behavior with
  | never => rfl
  | settles t r =>
    have ht := h t r rfl
    simp [raceOutcome, Nat.not_lt.mpr ht]

theorem timeoutMessage_mentions_timed_out (ms : Nat) :
    ∃ pre post, timeoutMessage ms = pre ++ "timed out" ++ post := by
  refine ⟨"Function execution ", " after " ++ toString ms ++ "ms", ?_⟩
  unfold timeoutMessage
  simp only [← String.append_assoc]
  rfl

/-- C7 counterexample: the hanging capability h is rescued by its fallback
b, so executeFunction yields success true, not the success false with a
timed-out error that the claim requires for every handler that misses its
timeout. -/
theorem timeout_rescued_by_fallback :
    structuredSuccess (executeFunction 5 regHB "h" sampleCtx 0).1 = some true := rfl

/-- C7 (amended): when the handler does not settle before the configured
timeout and no fallback rescue applies (no fallback declared or retries
exhausted), executeFunction yields success false with the timed-out error
message, which mentions timed out; the executionTime metadata stays 0,
because the source assigns it only after the race settles, so the timeout
path keeps the initial value. -/
theorem executeFunction_timeout_yields_failure (fuel : Nat) (reg reg1 : FunctionRegistry)
    (name : String) (functionDef : FunctionDefinition) (ctx : FunctionExecutionContext)
    (now : Nat)
    (hdef : mapGet reg.functions name = some functionDef)
    (hcr : checkRateLimit reg functionDef ctx now = (true, reg1))
    (hauth : functionDef.execution.requiresAuth = true → ctx.userId ≠ "")
    (hhang : ∀ t r, functionDef.handler ctx = .settles t r →
      functionDef.execution.timeout ≤ t)
    (hnofb : functionDef.execution.fallback = none ∨
      functionDef.execution.retries ≤ ctx.retryCount) :
    (executeFunction fuel reg name ctx now).1 =
      .ok { success := false, result := .null,
            error := some (timeoutMessage functionDef.execution.timeout),
            executionTime := 0, metadata := none, fallbackUsed := none } ∧
    ∃ pre post, timeoutMessage functionDef.execution.timeout
      = pre ++ "timed out" ++ post := by
  refine ⟨?_, timeoutMessage_mentions_timed_out functionDef.execution.timeout⟩
  have hrace := raceOutcome_timeout (functionDef.handler ctx)
    functionDef.execution.timeout hhang
  rw [executeFunction_failure_step fuel reg reg1 functionDef name ctx now
    functionDef.execution.timeout (timeoutMessage functionDef.execution.timeout)
    hdef hcr hauth hrace hnofb]

/-- Witness for C7: the solo hanging capability times out with success
false and the timed-out message. -/
theorem executeFunction_timeout_yields_failure_witness :
    (executeFunction 3 regHS "hs" sampleCtx 0).1 =
      .ok { success := false, result := .null,
            error := some (timeoutMessage 30000),
            executionTime := 0, metadata := none, fallbackUsed := none } ∧
    ∃ pre post, timeoutMessage 30000 = pre ++ "timed out" ++ post :=
  executeFunction_timeout_yields_failure 3 regHS regHS1 "hs" defHangSolo sampleCtx 0
    rfl rfl (by intro h; exact absurd h (by decide))
    (by intro t r h; exact absurd h (by intro hx; cases hx))
    (Or.inl rfl)

/-- Characterisation of an admitting checkRateLimit. -/
theorem checkRateLimit_admits (reg : FunctionRegistry) (functionDef : FunctionDefinition)
    (limiter : RateLimiter) (ctx : FunctionExecutionContext) (now : Nat)
    (hlim : mapGet reg.rateLimiters functionDef.name = some limiter)
    (hroom : (prunedRequests limiter (rateLimitKey ctx functionDef) now).length
      < limiter.limit) :
    checkRateLimit reg functionDef ctx now =
      (true, { reg with rateLimiters := mapSet reg.rateLimiters functionDef.name (limiterAfterAdmit limiter (rateLimitKey ctx functionDef) now) }) := by
  unfold checkRateLimit
  rw [hlim]
  dsimp only
  simp only [prunedRequests, rateLimitKey, limiterAfterAdmit] at hroom ⊢
  rw [if_neg (Nat.not_le.mpr hroom)]

/-- C10: a call that is admitted by the rate limiter and then rejected by
the auth check (auth required, caller missing) raises the auth error while
the admission timestamp stays recorded in the limiter state: the limiter
slot is consumed and not rolled back. -/
theorem rateLimit_slot_survives_auth_error (fuel : Nat) (reg : FunctionRegistry)
    (name : String) (functionDef : FunctionDefinition) (limiter : RateLimiter)
    (ctx : FunctionExecutionContext) (now : Nat)
    (hdef : mapGet reg.functions name = some functionDef)
    (hlim : mapGet reg.rateLimiters functionDef.name = some limiter)
    (hroom : (prunedRequests limiter (rateLimitKey ctx functionDef) now).length
      < limiter.limit)
    (hauth : functionDef.execution.requiresAuth = true)
    (huser : ctx.userId = "") :
    (executeFunction fuel reg name ctx now).1 = .error (.authRequired name) ∧
    (executeFunction fuel reg name ctx now).2.1.rateLimiters =
      mapSet reg.rateLimiters functionDef.name
        (limiterAfterAdmit limiter (rateLimitKey ctx functionDef) now) := by
  have hcr := checkRateLimit_admits reg functionDef limiter ctx now hlim hroom
  unfold executeFunction
  rw [hdef]
  dsimp only
  rw [hcr]
  dsimp only
  have hguard : (functionDef.execution.requiresAuth && decide (ctx.userId = "")) = true := by
    rw [hauth, huser]
    simp
  rw [hguard]
  simp only [Bool.not_true, Bool.false_eq_true, if_false, if_true]
  exact ⟨trivial, trivial⟩

/-- Witness for C10 on the concrete auth-requiring capability. -/
theorem rateLimit_slot_survives_auth_error_witness :
    (executeFunction 3 regAuth "secure" anonCtx 42).1 = .error (.authRequired "secure") ∧
    (executeFunction 3 regAuth "secure" anonCtx 42).2.1.rateLimiters =
      mapSet regAuth.rateLimiters "secure"
        (limiterAfterAdmit { requests := [], limit := 60, window := 60000 } ":secure" 42) :=
  rateLimit_slot_survives_auth_error 3 regAuth "secure" defAuth
    { requests := [], limit := 60, window := 60000 } anonCtx 42
    rfl rfl (by decide) rfl rfl

/-- Behaviour of a call into a registry holding exactly one capability with
a fresh one-per-window limiter: the call is not rate limited, the functions
map is unchanged, and the limiter holds exactly the admission timestamp. -/
theorem executeFunction_single_fresh (d : FunctionDefinition) (reg0 : FunctionRegistry)
    (ctx : FunctionExecutionContext) (t fuel : Nat)
    (hfun : reg0.functions = [(d.name, d)])
    (hrl : reg0.rateLimiters = [(d.name, { requests := [], limit := 1, window := 60000 })])
    (hauth : d.execution.requiresAuth = false) :
    (executeFunction fuel reg0 d.name ctx t).1 ≠ .error (.rateLimitExceeded d.name) ∧
    (executeFunction fuel reg0 d.name ctx t).2.1.functions = [(d.name, d)] ∧
    (executeFunction fuel reg0 d.name ctx t).2.1.rateLimiters =
      [(d.name, { requests := [(ctx.userId ++ ":" ++ d.name, [t])], limit := 1,
                  window := 60000 })] := by
  have hcr : checkRateLimit reg0 d ctx t =
      (true, { reg0 with rateLimiters := [(d.name, { requests := [(ctx.userId ++ ":" ++ d.name, [t])], limit := 1, window := 60000 })] }) := by
    unfold checkRateLimit
    rw [hrl]
    simp [mapGet, mapSet]
  have hguard : (d.execution.requiresAuth && decide (ctx.userId = "")) = false := by
    rw [hauth]; rfl
  have hlookup : mapGet reg0.functions d.name = some d := by rw [hfun]; simp [mapGet]
  unfold executeFunction
  rw [hlookup]
  dsimp only
  rw [hcr]
  dsimp only
  rw [hguard]
  simp only [Bool.not_true, Bool.false_eq_true, if_false]
  rcases hrace : raceOutcome (d.handler ctx) d.execution.timeout with ⟨el, res⟩
  cases res with
  | ok value =>
    dsimp only
    exact ⟨by simp, by simp [recordExecution, hfun], by simp [recordExecution]⟩
  | error msg =>
    dsimp only
    split
    · -- fallback declared and retries remain
      cases fuel with
      | zero => exact ⟨by simp, by simp [recordExecution, hfun], by simp [recordExecution]⟩
      | succ f =>
        dsimp only
        by_cases hb : d.name = d.execution.fallback.getD ""
        · rw [← hb]
          rw [hlookup]
          dsimp only
          -- the recursive call is rejected by the rate limiter
          have hrec : executeFunction f
              { reg0 with rateLimiters := [(d.name, { requests := [(ctx.userId ++ ":" ++ d.name, [t])], limit := 1, window := 60000 })] }
              d.name
              { ctx with retryCount := ctx.retryCount + 1, fallbackChain := ctx.fallbackChain ++ [d.name] }
              t =
              (.error (.rateLimitExceeded d.name),
               { reg0 with rateLimiters := [(d.name, { requests := [(ctx.userId ++ ":" ++ d.name, [t])], limit := 1, window := 60000 })] },
               { ctx with retryCount := ctx.retryCount + 1, fallbackChain := ctx.fallbackChain ++ [d.name] }) := by
            unfold executeFunction
            rw [show mapGet ({ reg0 with rateLimiters := [(d.name, { requests := [(ctx.userId ++ ":" ++ d.name, [t])], limit := 1, window := 60000 })] } : FunctionRegistry).functions d.name = some d from by rw [show ({ reg0 with rateLimiters := [(d.name, { requests := [(ctx.userId ++ ":" ++ d.name, [t])], limit := 1, window := 60000 })] } : FunctionRegistry).functions = reg0.functions from rfl, hfun]; simp [mapGet]]
            dsimp only
            have hcr2 : checkRateLimit
                { reg0 with rateLimiters := [(d.name, { requests := [(ctx.userId ++ ":" ++ d.name, [t])], limit := 1, window := 60000 })] }
                d
                { ctx with retryCount := ctx.retryCount + 1, fallbackChain := ctx.fallbackChain ++ [d.name] }
                t =
                (false, { reg0 with rateLimiters := [(d.name, { requests := [(ctx.userId ++ ":" ++ d.name, [t])], limit := 1, window := 60000 })] }) := by
              unfold checkRateLimit
              simp [mapGet, Nat.sub_self]
            rw [hcr2]
            rfl
          rw [hrec]
          exact ⟨by simp, by simp [recordExecution, hfun], by simp [recordExecution]⟩
        · have hlook : mapGet reg0.functions (d.execution.fallback.getD "") = none := by
            rw [hfun]; simp [mapGet, hb]
          rw [hlook]
          exact ⟨by simp, by simp [recordExecution, hfun], by simp [recordExecution]⟩
    · exact ⟨by simp, by simp [recordExecution, hfun], by simp [recordExecution]⟩

/-- C6: with a one-request-per-window rate limit, two consecutive calls by
the same caller inside one window see the first admitted and the second
rejected with the rate-limit error: the per-key list is pruned to the
window before the decision, admission requires the post-prune count to stay
below the limit, and the admission timestamp is recorded. -/
theorem rateLimit_two_calls (d : FunctionDefinition) (reg : FunctionRegistry)
    (ctx1 ctx2 : FunctionExecutionContext) (t1 t2 fuel1 fuel2 : Nat)
    (hreg : registerFunction emptyRegistry d = .ok reg)
    (hlim : d.execution.rateLimit.requestsPerMinute = 1)
    (hauth : d.execution.requiresAuth = false)
    (huser : ctx2.userId = ctx1.userId)
    (hwin : t2 - t1 < 60000) :
    (executeFunction fuel1 reg d.name ctx1 t1).1 ≠ .error (.rateLimitExceeded d.name) ∧
    (executeFunction fuel2 (executeFunction fuel1 reg d.name ctx1 t1).2.1 d.name ctx2 t2).1
      = .error (.rateLimitExceeded d.name) := by
  -- extract the registry built by registerFunction
  have hfun : reg.functions = [(d.name, d)] := by
    unfold registerFunction at hreg
    simp only [mapGet_nil, Option.isSome_none, Bool.false_eq_true, if_false] at hreg
    rcases hfb : d.execution.fallback with _ | fb <;> rw [hfb] at hreg <;>
      (injection hreg with h; rw [← h]; simp [mapSet])
  have hrl : reg.rateLimiters = [(d.name, { requests := [], limit := 1, window := 60000 })] := by
    unfold registerFunction at hreg
    simp only [mapGet_nil, Option.isSome_none, Bool.false_eq_true, if_false] at hreg
    rcases hfb : d.execution.fallback with _ | fb <;> rw [hfb] at hreg <;>
      (injection hreg with h; rw [← h]; simp [mapSet, hlim])
  obtain ⟨hfirst, hfunAfter, hrlAfter⟩ :=
    executeFunction_single_fresh d reg ctx1 t1 fuel1 hfun hrl hauth
  refine ⟨hfirst, ?_⟩
  -- the second call is rejected by the limiter
  have hlookup2 : mapGet (executeFunction fuel1 reg d.name ctx1 t1).2.1.functions d.name
      = some d := by rw [hfunAfter]; simp [mapGet]
  have hcr2 : checkRateLimit (executeFunction fuel1 reg d.name ctx1 t1).2.1 d ctx2 t2 =
      (false, (executeFunction fuel1 reg d.name ctx1 t1).2.1) := by
    unfold checkRateLimit
    rw [hrlAfter]
    have hkey : ctx2.userId ++ ":" ++ d.name = ctx1.userId ++ ":" ++ d.name := by
      rw [huser]
    simp [mapGet, hkey, hwin]
  unfold executeFunction
  rw [hlookup2]
  dsimp only
  rw [hcr2]
  rfl

/-- Witness for C6: two calls at 100 and 200 ms by the same caller. -/
theorem rateLimit_two_calls_witness :
    (executeFunction 3 regOnce "once" sampleCtx 100).1
      ≠ .error (.rateLimitExceeded "once") ∧
    (executeFunction 3 (executeFunction 3 regOnce "once" sampleCtx 100).2.1 "once"
      sampleCtx 200).1 = .error (.rateLimitExceeded "once") :=
  rateLimit_two_calls defOnce regOnce sampleCtx sampleCtx 100 200 3 3
    rfl rfl rfl rfl (by decide)

-- ### provider manager helper lemmas
theorem invokeAdapter_attemptLog (adapters : AdapterFleet) (st : RouterState) (p : String) :
    (invokeAdapter adapters st p).2.attemptLog = st.attemptLog := by
  unfold invokeAdapter
  dsimp only
  split <;> rfl

theorem updateCircuitBreaker_attemptLog (st : RouterState) (p : String) (s : Bool) (now : Nat) :
    (updateCircuitBreaker st p s now).attemptLog = st.attemptLog := by
  unfold updateCircuitBreaker
  dsimp only
  split <;> rfl

theorem callProvider_fails_of_adapters_fail (adapters : AdapterFleet)
    (hfail : ∀ n k, ∃ e, adapters n k = .error e) (st : RouterState) (p : String)
    (now : Nat) :
    (∃ err, (callProvider adapters st p now).1 = .error err) ∧
    (callProvider adapters st p now).2.attemptLog = st.attemptLog ++ [p] := by
  unfold callProvider
  dsimp only
  rcases hmp : mapGet managerProviders p with _ | cfg
  · exact ⟨⟨_, rfl⟩, rfl⟩
  · dsimp only
    have hinv : ∀ st2 : RouterState, (∃ err, (invokeAdapter adapters st2 p).1 = .error err) := by
      intro st2
      unfold invokeAdapter
      obtain ⟨e, he⟩ := hfail p ((mapGet st2.adapterCalls p).getD 0)
      dsimp only
      rw [he]
      exact ⟨_, rfl⟩
    rcases hst : ((mapGet st.circuits p).getD defaultCircuitState).status with _ | _ | _
    all_goals dsimp only
    · exact ⟨hinv _, invokeAdapter_attemptLog adapters _ p⟩
    · split
      · exact ⟨⟨_, rfl⟩, rfl⟩
      · exact ⟨hinv _, invokeAdapter_attemptLog adapters _ p⟩
    · exact ⟨hinv _, invokeAdapter_attemptLog adapters _ p⟩

theorem tryFallbacks_all_fail (adapters : AdapterFleet)
    (hfail : ∀ n k, ∃ e, adapters n k = .error e) (chain : List String)
    (primary modelId : String) (now startTime : Nat) : ∀ st : RouterState,
    (tryFallbacks adapters st chain primary modelId now startTime).1
      = .error (.allProvidersFailed modelId) ∧
    (tryFallbacks adapters st chain primary modelId now startTime).2.attemptLog
      = st.attemptLog ++ chain := by
  induction chain with
  | nil => intro st; exact ⟨rfl, by simp [tryFallbacks]⟩
  | cons fb rest ih =>
    intro st
    unfold tryFallbacks
    obtain ⟨⟨err, herr⟩, hlog⟩ := callProvider_fails_of_adapters_fail adapters hfail st fb now
    rcases hcp : callProvider adapters st fb now with ⟨res, st1⟩
    rw [hcp] at herr hlog
    dsimp only at herr hlog
    cases res with
    | ok r => exact absurd herr (by simp)
    | error e =>
      dsimp only
      obtain ⟨ih1, ih2⟩ := ih (updateCircuitBreaker st1 fb false now)
      refine ⟨ih1, ?_⟩
      rw [ih2, updateCircuitBreaker_attemptLog, hlog]
      simp

theorem selectProvider_inv (modelId : String) (options : CallOptions)
    (route : SelectedRoute) (hsel : selectProvider modelId options = .ok route) :
    route.provider ∉ route.fallbackChain := by
  unfold selectProvider at hsel
  rcases hm : getModel modelId with _ | m
  · rw [hm] at hsel; cases hsel
  · rw [hm] at hsel
    dsimp only at hsel
    rcases hf : options.forceProvider with _ | forced
    · rw [hf] at hsel
      dsimp only at hsel
      rcases hp : findProviderForModel modelId with _ | provider
      · rw [hp] at hsel; cases hsel
      · rw [hp] at hsel
        dsimp only at hsel
        injection hsel with h
        rw [← h]
        intro hmem
        have := List.of_mem_filter hmem
        simp at this
    · rw [hf] at hsel
      dsimp only at hsel
      split at hsel
      · injection hsel with h
        rw [← h]
        simp
      · cases hsel

/-- C4 counterexample: for the basic plan and a Perplexity model the
fallback chain maps the model-downgrade chain to providers in order and
keeps the duplicate openai entry: the chain is not de-duplicated. -/
theorem selectProvider_chain_not_deduplicated :
    selectProvider "llama-3.1-70b-instruct"
      { userId := none, planId := some "basic", personality := none, task := none,
        forceProvider := none } =
      .ok { provider := "perplexity", model := "llama-3.1-70b-instruct",
            fallbackChain := ["openai", "anthropic", "openai"] } ∧
    ¬ (["openai", "anthropic", "openai"] : List String).Nodup :=
  ⟨rfl, by decide⟩

/-- C4 (amended): the fallback chain excludes the primary provider but is
not de-duplicated; when every adapter fails, the router attempts the
primary and then every fallback-chain entry in declared order (duplicates
attempted again) and only then raises the all-providers-failed error. -/
theorem fallback_chain_order_and_exhaustion (adapters : AdapterFleet)
    (hfail : ∀ n k, ∃ e, adapters n k = .error e)
    (st : RouterState) (modelId : String) (options : CallOptions)
    (route : SelectedRoute) (now : Nat)
    (hsel : selectProvider modelId options = .ok route) :
    route.provider ∉ route.fallbackChain ∧
    (managerCall adapters st modelId options now).1
      = .error (.allProvidersFailed modelId) ∧
    (managerCall adapters st modelId options now).2.attemptLog
      = st.attemptLog ++ route.provider :: route.fallbackChain := by
  refine ⟨selectProvider_inv modelId options route hsel, ?_⟩
  unfold managerCall
  rw [hsel]
  dsimp only
  obtain ⟨⟨err, herr⟩, hlog⟩ :=
    callProvider_fails_of_adapters_fail adapters hfail st route.provider now
  rcases hcp : callProvider adapters st route.provider now with ⟨res, st1⟩
  rw [hcp] at herr hlog
  dsimp only at herr hlog
  cases res with
  | ok r => exact absurd herr (by simp)
  | error e =>
    dsimp only
    obtain ⟨h1, h2⟩ := tryFallbacks_all_fail adapters hfail route.fallbackChain
      route.provider modelId now now st1
    refine ⟨h1, ?_⟩
    rw [h2, hlog]
    simp

/-- Witness for C4: the basic plan and a Perplexity model with an
all-failing fleet. -/
theorem fallback_chain_order_and_exhaustion_witness :
    ("perplexity" : String) ∉ ["openai", "anthropic", "openai"] ∧
    (managerCall (fun _ _ => .error "boom") emptyRouterState "llama-3.1-70b-instruct"
      { userId := none, planId := some "basic", personality := none, task := none,
        forceProvider := none } 0).1 = .error (.allProvidersFailed "llama-3.1-70b-instruct") ∧
    (managerCall (fun _ _ => .error "boom") emptyRouterState "llama-3.1-70b-instruct"
      { userId := none, planId := some "basic", personality := none, task := none,
        forceProvider := none } 0).2.attemptLog
      = [] ++ "perplexity" :: ["openai", "anthropic", "openai"] :=
  fallback_chain_order_and_exhaustion (fun _ _ => .error "boom")
    (fun _ _ => ⟨"boom", rfl⟩) emptyRouterState "llama-3.1-70b-instruct"
    { userId := none, planId := some "basic", personality := none, task := none,
      forceProvider := none }
    { provider := "perplexity", model := "llama-3.1-70b-instruct",
      fallbackChain := ["openai", "anthropic", "openai"] } 0 rfl

theorem callProvider_not_found (adapters : AdapterFleet) (st : RouterState) (p : String)
    (now : Nat) (hp : mapGet managerProviders p = none) :
    callProvider adapters st p now =
      (.error (.providerNotFound p), { st with attemptLog := st.attemptLog ++ [p] }) := by
  unfold callProvider
  dsimp only
  rw [hp]

theorem callProvider_closed_fail (adapters : AdapterFleet) (st : RouterState) (p : String)
    (now : Nat) (e : String)
    (hp : (mapGet managerProviders p).isSome = true)
    (hstatus : ((mapGet st.circuits p).getD defaultCircuitState).status = .closed)
    (hfailp : adapters p ((mapGet st.adapterCalls p).getD 0) = .error e) :
    callProvider adapters st p now =
      (.error (.adapterFailure p e),
       { st with attemptLog := st.attemptLog ++ [p],
                 adapterCalls := mapSet st.adapterCalls p
                   (((mapGet st.adapterCalls p).getD 0) + 1) }) := by
  unfold callProvider
  dsimp only
  rcases hmp : mapGet managerProviders p with _ | cfg
  · rw [hmp] at hp; cases hp
  · dsimp only
    rw [hstatus]
    dsimp only
    unfold invokeAdapter
    dsimp only
    rw [hfailp]

theorem callProvider_open_blocked (adapters : AdapterFleet) (st : RouterState) (p : String)
    (now c : Nat) (lft : Option Nat) (T : Nat)
    (hp : (mapGet managerProviders p).isSome = true)
    (hc : mapGet st.circuits p = some ⟨.opened, c, lft, some T⟩)
    (hT : T ≠ 0) (hnow : now < T) :
    callProvider adapters st p now =
      (.error (.circuitOpen p), { st with attemptLog := st.attemptLog ++ [p] }) := by
  unfold callProvider
  rcases hmp : mapGet managerProviders p with _ | cfg
  · rw [hmp] at hp; cases hp
  · simp only [hc]
    simp [hT, hnow]

theorem callProvider_open_probe (adapters : AdapterFleet) (st : RouterState) (p : String)
    (now c : Nat) (lft : Option Nat) (T : Nat) (resp : ProviderResponse)
    (hp : (mapGet managerProviders p).isSome = true)
    (hc : mapGet st.circuits p = some ⟨.opened, c, lft, some T⟩)
    (hcool : T ≤ now)
    (hok : adapters p ((mapGet st.adapterCalls p).getD 0) = .ok resp) :
    callProvider adapters st p now =
      (.ok resp,
       { st with attemptLog := st.attemptLog ++ [p],
                 circuits := mapSet st.circuits p
                   { status := .halfOpen, failureCount := c, lastFailureTime := lft,
                     nextAttemptTime := some T },
                 adapterCalls := mapSet st.adapterCalls p
                   (((mapGet st.adapterCalls p).getD 0) + 1) }) := by
  unfold callProvider
  rcases hmp : mapGet managerProviders p with _ | cfg
  · rw [hmp] at hp; cases hp
  · simp only [hc]
    rw [if_neg (by simp [Nat.not_lt.mpr hcool])]
    unfold invokeAdapter
    dsimp only
    rw [hok]
    rfl

/-- Walk: the llama request on the free plan with a failing primary reduces
to the fallback loop over openai and anthropic. -/
theorem managerCall_llama_free_primary_fails (adapters : AdapterFleet) (st : RouterState)
    (now : Nat) (e : String)
    (hpstat : ((mapGet st.circuits "perplexity").getD defaultCircuitState).status = .closed)
    (hpfail : adapters "perplexity" ((mapGet st.adapterCalls "perplexity").getD 0)
      = .error e) :
    managerCall adapters st "llama-3.1-70b-instruct" freeOptions now =
      tryFallbacks adapters
        { st with attemptLog := st.attemptLog ++ ["perplexity"],
                  adapterCalls := mapSet st.adapterCalls "perplexity"
                    (((mapGet st.adapterCalls "perplexity").getD 0) + 1) }
        ["openai", "anthropic"] "perplexity" "llama-3.1-70b-instruct" now now := by
  unfold managerCall
  rw [show selectProvider "llama-3.1-70b-instruct" freeOptions =
    .ok { provider := "perplexity", model := "llama-3.1-70b-instruct",
          fallbackChain := ["openai", "anthropic"] } from rfl]
  dsimp only
  rw [callProvider_closed_fail adapters st "perplexity" now e rfl hpstat hpfail]

theorem updateCircuitBreaker_adapterCalls (st : RouterState) (p : String) (s : Bool)
    (now : Nat) : (updateCircuitBreaker st p s now).adapterCalls = st.adapterCalls := by
  unfold updateCircuitBreaker
  dsimp only
  split <;> rfl

theorem updateCircuitBreaker_circuits_ne (st : RouterState) (p q : String) (s : Bool)
    (now : Nat) (h : p ≠ q) :
    mapGet (updateCircuitBreaker st p s now).circuits q = mapGet st.circuits q := by
  unfold updateCircuitBreaker
  dsimp only
  split
  · dsimp only; rw [mapGet_mapSet_ne _ _ _ _ h]
  · dsimp only; rw [mapGet_mapSet_ne _ _ _ _ h]

theorem updateCircuitBreaker_failure_eval (st : RouterState) (p : String) (now c : Nat)
    (lft nxt : Option Nat) (s0 : CircuitStatus)
    (hcur : mapGet st.circuits p = some ⟨s0, c, lft, nxt⟩) :
    updateCircuitBreaker st p false now =
      { st with circuits := mapSet st.circuits p ⟨if decide (5 ≤ c + 1) = true then .opened else .closed, c + 1, some now, if decide (5 ≤ c + 1) = true then some (now + 60000) else none⟩ } := by
  unfold updateCircuitBreaker
  simp only [hcur]
  rfl

theorem updateCircuitBreaker_success_eval (st : RouterState) (p : String) (now : Nat) :
    updateCircuitBreaker st p true now =
      { st with circuits := mapSet st.circuits p ⟨.closed, 0, none, none⟩ } := by
  unfold updateCircuitBreaker
  rfl

/-- The fallback loop over openai and anthropic when openai has a closed
circuit and a failing adapter: both failures are recorded, the call ends
with the all-providers-failed error, and the openai adapter was invoked
exactly once more. -/
theorem tryFallbacks_openai_fail_proj (adapters : AdapterFleet) (st2 : RouterState)
    (now startTime c : Nat) (lft nxt : Option Nat) (e2 : String)
    (primary modelId : String)
    (hoc : mapGet st2.circuits "openai" = some ⟨.closed, c, lft, nxt⟩)
    (hofail : adapters "openai" ((mapGet st2.adapterCalls "openai").getD 0) = .error e2) :
    (tryFallbacks adapters st2 ["openai", "anthropic"] primary modelId now startTime).1
      = .error (.allProvidersFailed modelId) ∧
    mapGet (tryFallbacks adapters st2 ["openai", "anthropic"] primary modelId now
        startTime).2.circuits "openai" =
      some ⟨if decide (5 ≤ c + 1) = true then .opened else .closed, c + 1, some now,
            if decide (5 ≤ c + 1) = true then some (now + 60000) else none⟩ ∧
    mapGet (tryFallbacks adapters st2 ["openai", "anthropic"] primary modelId now
        startTime).2.adapterCalls "openai"
      = some (((mapGet st2.adapterCalls "openai").getD 0) + 1) := by
  unfold tryFallbacks
  rw [callProvider_closed_fail adapters st2 "openai" now e2 rfl (by rw [hoc]; rfl) hofail]
  dsimp only
  have hoc3 : mapGet ({ st2 with adapterCalls := mapSet st2.adapterCalls "openai" (((mapGet st2.adapterCalls "openai").getD 0) + 1), attemptLog := st2.attemptLog ++ ["openai"] } : RouterState).circuits "openai" = some ⟨.closed, c, lft, nxt⟩ := hoc
  rw [updateCircuitBreaker_failure_eval _ "openai" now c lft nxt CircuitStatus.closed hoc3]
  unfold tryFallbacks
  rw [callProvider_not_found adapters _ "anthropic" now rfl]
  dsimp only
  unfold tryFallbacks
  refine ⟨rfl, ?_, ?_⟩
  · rw [updateCircuitBreaker_circuits_ne _ _ _ _ _ (by decide : ("anthropic" : String) ≠ "openai")]
    exact mapGet_mapSet_self _ _ _
  · rw [updateCircuitBreaker_adapterCalls]
    exact mapGet_mapSet_self _ _ _

/-- The fallback loop when the openai circuit is open and its cooldown has
not elapsed: the adapter map is untouched (no invocation), but the rejected
attempt is still recorded as another failure, extending the cooldown. -/
theorem tryFallbacks_openai_blocked_proj (adapters : AdapterFleet) (st2 : RouterState)
    (now startTime c : Nat) (lft : Option Nat) (T : Nat) (primary modelId : String)
    (hoc : mapGet st2.circuits "openai" = some ⟨.opened, c, lft, some T⟩)
    (hT : T ≠ 0) (hnow : now < T) :
    (tryFallbacks adapters st2 ["openai", "anthropic"] primary modelId now startTime).1
      = .error (.allProvidersFailed modelId) ∧
    (tryFallbacks adapters st2 ["openai", "anthropic"] primary modelId now
        startTime).2.adapterCalls = st2.adapterCalls ∧
    mapGet (tryFallbacks adapters st2 ["openai", "anthropic"] primary modelId now
        startTime).2.circuits "openai" =
      some ⟨if decide (5 ≤ c + 1) = true then .opened else .closed, c + 1, some now,
            if decide (5 ≤ c + 1) = true then some (now + 60000) else none⟩ := by
  unfold tryFallbacks
  rw [callProvider_open_blocked adapters st2 "openai" now c lft T rfl hoc hT hnow]
  dsimp only
  have hoc3 : mapGet ({ st2 with attemptLog := st2.attemptLog ++ ["openai"] } : RouterState).circuits "openai" = some ⟨.opened, c, lft, some T⟩ := hoc
  rw [updateCircuitBreaker_failure_eval _ "openai" now c lft (some T) CircuitStatus.opened hoc3]
  unfold tryFallbacks
  rw [callProvider_not_found adapters _ "anthropic" now rfl]
  dsimp only
  unfold tryFallbacks
  refine ⟨rfl, ?_, ?_⟩
  · rw [updateCircuitBreaker_adapterCalls]
  · rw [updateCircuitBreaker_circuits_ne _ _ _ _ _ (by decide : ("anthropic" : String) ≠ "openai")]
    exact mapGet_mapSet_self _ _ _

/-- The fallback loop when the openai circuit is open, its cooldown has
elapsed, and its adapter now succeeds: exactly one probe is sent, the
response is served by openai as a fallback, and the circuit closes with a
zero failure count. -/
theorem tryFallbacks_openai_probe_proj (adapters : AdapterFleet) (st2 : RouterState)
    (now startTime c : Nat) (lft : Option Nat) (T : Nat) (resp : ProviderResponse)
    (primary modelId : String)
    (hoc : mapGet st2.circuits "openai" = some ⟨.opened, c, lft, some T⟩)
    (hcool : T ≤ now)
    (hok : adapters "openai" ((mapGet st2.adapterCalls "openai").getD 0) = .ok resp) :
    (tryFallbacks adapters st2 ["openai", "anthropic"] primary modelId now startTime).1
      = .ok { payload := resp.payload,
              metadata := { processingTime := now - startTime, fallbackUsed := true,
                            providerUsed := some "openai",
                            fallbackReason := some ("Primary provider " ++ primary ++ " failed") } } ∧
    mapGet (tryFallbacks adapters st2 ["openai", "anthropic"] primary modelId now
        startTime).2.adapterCalls "openai"
      = some (((mapGet st2.adapterCalls "openai").getD 0) + 1) ∧
    mapGet (tryFallbacks adapters st2 ["openai", "anthropic"] primary modelId now
        startTime).2.circuits "openai" = some ⟨.closed, 0, none, none⟩ := by
  unfold tryFallbacks
  rw [callProvider_open_probe adapters st2 "openai" now c lft T resp rfl hoc hcool hok]
  dsimp only
  rw [updateCircuitBreaker_success_eval]
  refine ⟨rfl, ?_, ?_⟩
  · exact mapGet_mapSet_self _ _ _
  · dsimp only
    exact mapGet_mapSet_self _ _ _

/-- C2 counterexample: with openai as the always-failing primary provider
(model gpt-4 on the free plan), six router calls at the same instant invoke
the openai adapter six times and leave no circuit-breaker record at all:
primary failures are never recorded, so the circuit never opens and the
sixth call still reaches the adapter. -/
theorem primary_failures_never_recorded :
    mapGet (runCalls (fun _ _ => .error "boom")
      (List.replicate 6 ("gpt-4", freeOptions, 0)) emptyRouterState).2.adapterCalls
      "openai" = some 6 ∧
    mapGet (runCalls (fun _ _ => .error "boom")
      (List.replicate 6 ("gpt-4", freeOptions, 0)) emptyRouterState).2.circuits
      "openai" = none :=
  ⟨rfl, rfl⟩

/-- C2 (amended): circuit-breaker discipline holds for a provider in
fallback position, here openai behind the perplexity primary on the free
plan.  (a) a failing fallback attempt increments the recorded failure
count, opening the circuit with a sixty-second cooldown once the count
reaches the threshold of five; (b) while the circuit is open and the
cooldown has not elapsed, the router call does not invoke the openai
adapter at all, though the rejected attempt is recorded as another failure
that extends the cooldown; (c) once the cooldown has elapsed, exactly one
probe is sent, and a successful probe closes the circuit and resets
failureCount to zero.  Failures of a provider in primary position are
never recorded. -/
theorem circuitBreaker_fallback_discipline (adapters : AdapterFleet) (st : RouterState)
    (now : Nat) (e1 : String)
    (hpstat : ((mapGet st.circuits "perplexity").getD defaultCircuitState).status = .closed)
    (hpfail : adapters "perplexity" ((mapGet st.adapterCalls "perplexity").getD 0)
      = .error e1) :
    (∀ c lft nxt e2, mapGet st.circuits "openai" = some ⟨.closed, c, lft, nxt⟩ →
      adapters "openai" ((mapGet st.adapterCalls "openai").getD 0) = .error e2 →
      mapGet (managerCall adapters st "llama-3.1-70b-instruct" freeOptions
          now).2.circuits "openai" =
        some ⟨if decide (5 ≤ c + 1) = true then .opened else .closed, c + 1, some now,
              if decide (5 ≤ c + 1) = true then some (now + 60000) else none⟩) ∧
    (∀ c lft T, mapGet st.circuits "openai" = some ⟨.opened, c, lft, some T⟩ →
      T ≠ 0 → now < T →
      (managerCall adapters st "llama-3.1-70b-instruct" freeOptions now).1
        = .error (.allProvidersFailed "llama-3.1-70b-instruct") ∧
      mapGet (managerCall adapters st "llama-3.1-70b-instruct" freeOptions
          now).2.adapterCalls "openai" = mapGet st.adapterCalls "openai" ∧
      mapGet (managerCall adapters st "llama-3.1-70b-instruct" freeOptions
          now).2.circuits "openai" =
        some ⟨if decide (5 ≤ c + 1) = true then .opened else .closed, c + 1, some now,
              if decide (5 ≤ c + 1) = true then some (now + 60000) else none⟩) ∧
    (∀ c lft T resp, mapGet st.circuits "openai" = some ⟨.opened, c, lft, some T⟩ →
      T ≤ now →
      adapters "openai" ((mapGet st.adapterCalls "openai").getD 0) = .ok resp →
      (managerCall adapters st "llama-3.1-70b-instruct" freeOptions now).1
        = .ok { payload := resp.payload,
                metadata := { processingTime := now - now, fallbackUsed := true,
                              providerUsed := some "openai",
                              fallbackReason := some ("Primary provider " ++ "perplexity" ++ " failed") } } ∧
      mapGet (managerCall adapters st "llama-3.1-70b-instruct" freeOptions
          now).2.adapterCalls "openai"
        = some (((mapGet st.adapterCalls "openai").getD 0) + 1) ∧
      mapGet (managerCall adapters st "llama-3.1-70b-instruct" freeOptions
          now).2.circuits "openai" = some ⟨.closed, 0, none, none⟩) := by
  have hmain := managerCall_llama_free_primary_fails adapters st now e1 hpstat hpfail
  have hcnt : mapGet (mapSet st.adapterCalls "perplexity"
      (((mapGet st.adapterCalls "perplexity").getD 0) + 1)) "openai"
      = mapGet st.adapterCalls "openai" :=
    mapGet_mapSet_ne _ _ _ _ (by decide)
  refine ⟨?_, ?_, ?_⟩
  · intro c lft nxt e2 hoc hofail
    rw [hmain]
    have h := tryFallbacks_openai_fail_proj adapters
      ({ st with adapterCalls := mapSet st.adapterCalls "perplexity" (((mapGet st.adapterCalls "perplexity").getD 0) + 1), attemptLog := st.attemptLog ++ ["perplexity"] } : RouterState)
      now now c lft nxt e2 "perplexity" "llama-3.1-70b-instruct" hoc
      (show adapters "openai" ((mapGet (mapSet st.adapterCalls "perplexity" (((mapGet st.adapterCalls "perplexity").getD 0) + 1)) "openai").getD 0) = .error e2 by rw [hcnt]; exact hofail)
    exact h.2.1
  · intro c lft T hoc hT hnow
    rw [hmain]
    have h := tryFallbacks_openai_blocked_proj adapters
      ({ st with adapterCalls := mapSet st.adapterCalls "perplexity" (((mapGet st.adapterCalls "perplexity").getD 0) + 1), attemptLog := st.attemptLog ++ ["perplexity"] } : RouterState)
      now now c lft T "perplexity" "llama-3.1-70b-instruct" hoc hT hnow
    refine ⟨h.1, ?_, h.2.2⟩
    rw [h.2.1]
    exact hcnt
  · intro c lft T resp hoc hcool hok
    rw [hmain]
    have h := tryFallbacks_openai_probe_proj adapters
      ({ st with adapterCalls := mapSet st.adapterCalls "perplexity" (((mapGet st.adapterCalls "perplexity").getD 0) + 1), attemptLog := st.attemptLog ++ ["perplexity"] } : RouterState)
      now now c lft T resp "perplexity" "llama-3.1-70b-instruct" hoc hcool
      (show adapters "openai" ((mapGet (mapSet st.adapterCalls "perplexity" (((mapGet st.adapterCalls "perplexity").getD 0) + 1)) "openai").getD 0) = .ok resp by rw [hcnt]; exact hok)
    refine ⟨h.1, ?_, h.2.2⟩
    rw [h.2.1]
    rw [hcnt]

/-- Witness for C2 on the probeFleet trace: a recorded failure increments
the count (call two), the blocked call at 59999 ms does not reach the
adapter yet extends the cooldown, and the probe at 120000 ms succeeds,
closing the circuit. -/
theorem circuitBreaker_fallback_discipline_witness :
    (mapGet (managerCall probeFleet probeState1 "llama-3.1-70b-instruct" freeOptions
        10).2.circuits "openai" = some ⟨.closed, 2, some 10, none⟩) ∧
    ((managerCall probeFleet probeState5 "llama-3.1-70b-instruct" freeOptions 59999).1
        = .error (.allProvidersFailed "llama-3.1-70b-instruct") ∧
      mapGet (managerCall probeFleet probeState5 "llama-3.1-70b-instruct" freeOptions
        59999).2.adapterCalls "openai" = mapGet probeState5.adapterCalls "openai" ∧
      mapGet (managerCall probeFleet probeState5 "llama-3.1-70b-instruct" freeOptions
        59999).2.circuits "openai" = some ⟨.opened, 6, some 59999, some 119999⟩) ∧
    ((managerCall probeFleet probeState6 "llama-3.1-70b-instruct" freeOptions 120000).1
        = .ok { payload := "ok",
                metadata := { processingTime := 120000 - 120000, fallbackUsed := true,
                              providerUsed := some "openai",
                              fallbackReason := some "Primary provider perplexity failed" } } ∧
      mapGet (managerCall probeFleet probeState6 "llama-3.1-70b-instruct" freeOptions
        120000).2.adapterCalls "openai" = some 6 ∧
      mapGet (managerCall probeFleet probeState6 "llama-3.1-70b-instruct" freeOptions
        120000).2.circuits "openai" = some ⟨.closed, 0, none, none⟩) :=
  ⟨(circuitBreaker_fallback_discipline probeFleet probeState1 10 "boom" rfl rfl).1
      1 (some 0) none "boom" rfl rfl,
   (circuitBreaker_fallback_discipline probeFleet probeState5 59999 "boom" rfl rfl).2.1
      5 (some 0) 60000 rfl (by decide) (by decide),
   (circuitBreaker_fallback_discipline probeFleet probeState6 120000 "boom" rfl rfl).2.2
      6 (some 59999) 119999
      { payload := "ok",
        metadata := { processingTime := 0, fallbackUsed := false,
                      providerUsed := none, fallbackReason := none } }
      rfl (by decide) rfl⟩

-- ### C8: retry loop
theorem withRetryFrom_all_fail {α : Type} (operation : Nat → Except String α)
    (baseDelay : Nat) (jitter : Nat → Nat) :
    ∀ (rem att : Nat), (∀ i, att ≤ i → i ≤ att + rem → ∃ e, operation i = .error e) →
    ∃ e, operation (att + rem) = .error e ∧
      withRetryFrom operation baseDelay jitter att rem =
        (.error e, rem + 1, (List.range rem).map (fun k => baseDelay * 2 ^ (att + k) + jitter (att + k))) := by
  intro rem
  induction rem with
  | zero =>
    intro att hall
    obtain ⟨e, he⟩ := hall att (Nat.le_refl att) (Nat.le_add_right att 0)
    refine ⟨e, by simpa using he, ?_⟩
    unfold withRetryFrom
    rw [show operation att = .error e from he]
    rfl
  | succ rem ih =>
    intro att hall
    obtain ⟨e0, he0⟩ := hall att (Nat.le_refl att) (Nat.le_add_right att (rem + 1))
    obtain ⟨e, he, hrec⟩ := ih (att + 1) (fun i h1 h2 =>
      hall i (Nat.le_of_succ_le h1) (by omega))
    refine ⟨e, by rw [show att + (rem + 1) = att + 1 + rem by omega]; exact he, ?_⟩
    have hlist : (baseDelay * 2 ^ att + jitter att) ::
        (List.range rem).map (fun k => baseDelay * 2 ^ (att + 1 + k) + jitter (att + 1 + k))
        = (List.range (rem + 1)).map (fun k => baseDelay * 2 ^ (att + k) + jitter (att + k)) := by
      rw [List.range_succ_eq_map, List.map_cons, List.map_map]
      refine congrArg₂ List.cons (by simp) ?_
      apply List.map_congr_left
      intro k _
      simp only [Function.comp]
      have h1 : att + 1 + k = att + (k + 1) := by omega
      rw [h1]
    unfold withRetryFrom
    rw [he0]
    dsimp only
    rw [hrec]
    dsimp only
    rw [hlist]

/-- C8 counterexample: an operation failing with an authentication error on
every attempt is invoked four times by withRetry with the default budget of
three retries, with the full backoff schedule slept in between: auth
failures are retried like any other failure. -/
theorem withRetry_retries_auth_failures :
    (withRetry (fun _ => (.error "401 Unauthorized" : Except String JsValue)) 3 1000
      (fun _ => 0)).2.1 = 4 ∧
    (withRetry (fun _ => (.error "401 Unauthorized" : Except String JsValue)) 3 1000
      (fun _ => 0)).2.2 = [1000, 2000, 4000] :=
  ⟨rfl, rfl⟩

/-- C8 (amended): withRetry performs maxRetries plus one attempts when every
attempt fails, sleeping baseDelay times two to the attempt index plus jitter
between consecutive attempts, rethrows the last error, and retries every
kind of failure thrown by the operation; request-validation failures happen
before the loop: an invalid request makes the adapter call throw with zero
attempts. -/
theorem withRetry_backoff_schedule {α : Type} (operation : Nat → Except String α)
    (maxRetries baseDelay : Nat) (jitter : Nat → Nat)
    (hfail : ∀ i, i ≤ maxRetries → ∃ e, operation i = .error e) :
    (∃ e, operation maxRetries = .error e ∧
      withRetry operation maxRetries baseDelay jitter =
        (.error e, maxRetries + 1,
         (List.range maxRetries).map (fun k => baseDelay * 2 ^ k + jitter k))) ∧
    (∀ (cfg : ProviderConfig) (apiKey : String) (request : ProviderRequest)
        (retriesOption : Option Nat),
      validateRequest cfg apiKey request = false →
      (openAICall cfg apiKey request operation retriesOption jitter).2.1 = 0) := by
  constructor
  · obtain ⟨e, he, hrun⟩ := withRetryFrom_all_fail operation baseDelay jitter maxRetries 0
      (fun i h1 h2 => hfail i (by omega))
    refine ⟨e, by simpa using he, ?_⟩
    unfold withRetry
    rw [hrun]
    simp
  · intro cfg apiKey request retriesOption hbad
    unfold openAICall
    rw [hbad]
    rfl

/-- Witness for C8: the always-auth-failing operation at the default
budget, and an empty-message request rejected with zero attempts. -/
theorem withRetry_backoff_schedule_witness :
    (∃ e, (fun _ => (.error "401 Unauthorized" : Except String JsValue)) 3 = .error e ∧
      withRetry (fun _ => (.error "401 Unauthorized" : Except String JsValue)) 3 1000
          (fun _ => 0) =
        (.error e, 3 + 1,
         (List.range 3).map (fun k => 1000 * 2 ^ k + (fun _ => 0) k))) ∧
    (∀ (cfg : ProviderConfig) (apiKey : String) (request : ProviderRequest)
        (retriesOption : Option Nat),
      validateRequest cfg apiKey request = false →
      (openAICall cfg apiKey request
        (fun _ => (.error "401 Unauthorized" : Except String JsValue)) retriesOption
        (fun _ => 0)).2.1 = 0) :=
  withRetry_backoff_schedule (fun _ => (.error "401 Unauthorized" : Except String JsValue))
    3 1000 (fun _ => 0) (fun _ _ => ⟨"401 Unauthorized", rfl⟩)

/-- C9 counterexample: a failing short-term-memory write aborts the whole
pipeline: the error surfaces, the memory-update stage never completes, the
response-generation and feedback stages never start, and no warning is
recorded, contrary to the claimed best-effort handling of memory writes. -/
theorem pipeline_memory_write_failure_aborts :
    (processEvent (initializePipelines envRedisFail)).1 = .error "redis down" ∧
    (processEvent (initializePipelines envRedisFail)).2.1 =
      [.stageStart .ingest, .stageComplete .ingest,
       .stageStart .validate, .stageComplete .validate,
       .stageStart .contextAnalysis, .stageComplete .contextAnalysis,
       .stageStart .personalityRouting, .stageComplete .personalityRouting,
       .stageStart .functionExecution, .stageComplete .functionExecution,
       .stageStart .memoryUpdate, .pipelineError "redis down"] ∧
    (processEvent (initializePipelines envRedisFail)).2.2.warnings = [] :=
  ⟨rfl, rfl, rfl⟩

/-- C9 (amended): a step failure aborts the remainder of its stage and all
later stages, surfaces the error to the caller, and records it in the
context error list; no warning is recorded and no step is treated as
best-effort.  A stage whose steps all succeed completes normally and the
loop continues with the next stage. -/
theorem pipeline_step_failure_aborts (pipelines : PipelineStage → List PipelineStep)
    (s : PipelineStage) (rest : List PipelineStage) (ctx : PipelineCtx)
    (log : List PipelineEmission) :
    (∀ msg ctx1, runSteps (pipelines s) { ctx with stage := s } = .error (msg, ctx1) →
      processStages pipelines (s :: rest) ctx log =
        (.error msg, log ++ [.stageStart s, .pipelineError msg],
         { ctx1 with errors := ctx1.errors ++ [msg] })) ∧
    (∀ ctx1, runSteps (pipelines s) { ctx with stage := s } = .ok ctx1 →
      processStages pipelines (s :: rest) ctx log =
        processStages pipelines rest { ctx1 with stageTimes := mapSet ctx1.stageTimes s 0 }
          (log ++ [.stageStart s, .stageComplete s])) := by
  constructor
  · intro msg ctx1 hfail
    unfold processStages
    dsimp only
    rw [hfail]
    simp
  · intro ctx1 hok
    unfold processStages
    dsimp only
    rw [hok]
    dsimp only
    conv_lhs => unfold processStages
    simp only [List.append_assoc]
    rfl

/-- Witness for C9 on the concrete redis-failure environment: the failing
memory-update stage aborts with the error recorded, and the preceding
function-execution stage completes normally. -/
theorem pipeline_step_failure_aborts_witness :
    processStages (initializePipelines envRedisFail)
        [PipelineStage.memoryUpdate, .responseGeneration, .feedbackLoop]
        initialPipelineCtx [] =
      (.error "redis down",
       [] ++ [.stageStart .memoryUpdate, .pipelineError "redis down"],
       { stage := PipelineStage.memoryUpdate, data := [], errors := [] ++ ["redis down"],
         warnings := [], stageTimes := [] }) ∧
    processStages (initializePipelines envRedisFail)
        [PipelineStage.responseGeneration, .feedbackLoop] initialPipelineCtx [] =
      processStages (initializePipelines envRedisFail) [.feedbackLoop]
        { initialPipelineCtx with
            stage := PipelineStage.responseGeneration,
            stageTimes := mapSet initialPipelineCtx.stageTimes .responseGeneration 0 }
        ([] ++ [.stageStart .responseGeneration, .stageComplete .responseGeneration]) :=
  ⟨(pipeline_step_failure_aborts (initializePipelines envRedisFail) .memoryUpdate
      [.responseGeneration, .feedbackLoop] initialPipelineCtx []).1 "redis down"
      { stage := PipelineStage.memoryUpdate, data := [], errors := [], warnings := [],
        stageTimes := [] } rfl,
   (pipeline_step_failure_aborts (initializePipelines envRedisFail) .responseGeneration
      [.feedbackLoop] initialPipelineCtx []).2
      { initialPipelineCtx with stage := PipelineStage.responseGeneration } rfl⟩

/-- C1: a caller at the free-plan daily quota is not rejected, and
checkUsageLimits reports the soft degrade with contextReduction one half;
but the assembled context requests the full plan window of five history
messages and equals, message for message, the context assembled for a
caller with zero usage: the reduction factor is computed and then
discarded, never reaching buildContext. -/
theorem quota_context_not_reduced :
    (getPlan "free").map (fun plan => checkUsageLimits quotaUsage plan "Mon Jan 06 2025")
      = some ({ fallbackApplied := true, contextReduction := 1/2 }, false) ∧
    routeMessagePrefix (fun _ => some freeUser) (fun _ => quotaUsage)
        (fun _ => some chatPersona) histN getRelevantMemoriesStub "Mon Jan 06 2025"
        chatRequest
      = .ok ({ fallbackApplied := true, contextReduction := 1/2 }, fullContext, []) ∧
    routeMessagePrefix (fun _ => some freeUser) (fun _ => freshUsage)
        (fun _ => some chatPersona) histN getRelevantMemoriesStub "Mon Jan 06 2025"
        chatRequest
      = .ok ({ fallbackApplied := false, contextReduction := 1 }, fullContext, []) ∧
    fullContext.length = 7 :=
  ⟨rfl, rfl, rfl, rfl⟩

end DevAi
